import Mathlib

/-!
Verification model of the Fire VFX Blender add-on (src/blender_fire_vfx.py).

The add-on is host-application glue: it reads a scene-level settings record and
writes objects, fluid modifiers, and a shader node graph owned by the host.
We shallowly embed:
  * the settings record (class FIREVFX_Settings) with exact property defaults;
  * the preset tables BASE_PRESET / PRESET_OVERRIDES as association lists, and
    _apply_preset_to_settings as the fold of per-field writes over them;
  * a document state (objects with ids, collections with member ids, materials)
    modelling the slice of the host data model the operators touch;
  * the operators create_rig / update_rig / bake_all and the helpers
    _ensure_fluid_modifier, _apply_domain_settings, _apply_flow_settings,
    _set_color_ramp_elements, _build_volume_shader, _ensure_domain_material,
    _link_to_collection, _ensure_collection, _find_rig.

Floats are modelled as rationals (all literals in the source are exact
decimals and the code only copies values and divides by two).  Host behaviour
is modelled minimally and deterministically: collections are lists of object
ids, a color ramp is an index-stable list of (position, color) stops
(new appends, remove drops the last stop and fails on the last remaining one,
as the source's own docstring describes), and host bake/free outcomes are
parameters of the bake model.
-/

/-- 3-component float vector (FloatVectorProperty size=3). -/
abbrev V3 : Type := ℚ × ℚ × ℚ

/-- RGBA color (FloatVectorProperty size=4, subtype COLOR). -/
abbrev C4 : Type := ℚ × ℚ × ℚ × ℚ

/-- The scene settings record, one field per property of FIREVFX_Settings
(src lines 445-558). -/
structure Settings where
  preset : String
  domain_object_name : String
  emitter_object_name : String
  ui_show_advanced : Bool
  apply_scale_on_update : Bool
  domain_size : V3
  emitter_scale : V3
  resolution_max : Int
  time_scale : ℚ
  vorticity : ℚ
  use_adaptive_domain : Bool
  adaptive_margin : Int
  adaptive_additional_res : Int
  use_noise : Bool
  noise_strength : ℚ
  noise_scale : ℚ
  use_dissolve_smoke : Bool
  dissolve_speed : Int
  burning_rate : ℚ
  flame_smoke : ℚ
  flow_density : ℚ
  flow_temperature : ℚ
  flow_fuel : ℚ
  use_initial_velocity : Bool
  velocity_factor : ℚ
  flame_strength : ℚ
  smoke_density : ℚ
  flame_color_low : C4
  flame_color_mid : C4
  flame_color_high : C4
  cache_directory : String
  deriving DecidableEq

/-- Property defaults of FIREVFX_Settings (the values of the `default=`
arguments, src lines 445-558). -/
def defaultSettings : Settings where
  preset := "TORCH"
  domain_object_name := ""
  emitter_object_name := ""
  ui_show_advanced := false
  apply_scale_on_update := false
  domain_size := (2.0, 2.0, 3.0)
  emitter_scale := (0.07, 0.07, 0.25)
  resolution_max := 96
  time_scale := 1.0
  vorticity := 0.8
  use_adaptive_domain := true
  adaptive_margin := 4
  adaptive_additional_res := 0
  use_noise := false
  noise_strength := 1.0
  noise_scale := 2.5
  use_dissolve_smoke := false
  dissolve_speed := 30
  burning_rate := 1.2
  flame_smoke := 0.18
  flow_density := 1.0
  flow_temperature := 1.25
  flow_fuel := 1.15
  use_initial_velocity := true
  velocity_factor := 1.5
  flame_strength := 35.0
  smoke_density := 2.0
  flame_color_low := (0.07, 0.01, 0.0, 1.0)
  flame_color_mid := (1.0, 0.42, 0.08, 1.0)
  flame_color_high := (1.0, 0.95, 0.85, 1.0)
  cache_directory := "//fire_vfx_cache"

/-- A value appearing in a preset table (the dict values of BASE_PRESET and
PRESET_OVERRIDES). -/
inductive PVal where
  | pInt : Int → PVal
  | pFloat : ℚ → PVal
  | pBool : Bool → PVal
  | pVec : V3 → PVal
  | pCol : C4 → PVal
  deriving DecidableEq

open PVal

/-- The field names occurring as keys of BASE_PRESET / PRESET_OVERRIDES
(string keys in the Python dicts; every one of them is a property of
FIREVFX_Settings, so the `hasattr` guard in _apply_preset_to_settings is
always true for them). -/
inductive K where
  | domain_size | emitter_scale | resolution_max | time_scale | vorticity
  | use_adaptive_domain | adaptive_margin | adaptive_additional_res
  | use_noise | noise_strength | noise_scale
  | use_dissolve_smoke | dissolve_speed | burning_rate | flame_smoke
  | flow_density | flow_temperature | flow_fuel
  | use_initial_velocity | velocity_factor
  | flame_strength | smoke_density
  | flame_color_low | flame_color_mid | flame_color_high
  deriving DecidableEq

/-- BASE_PRESET (src lines 296-323), in source order. -/
def BASE_PRESET : List (K × PVal) :=
  [ (K.domain_size, pVec (2.0, 2.0, 3.0)),
    (K.emitter_scale, pVec (0.07, 0.07, 0.25)),
    (K.resolution_max, pInt 96),
    (K.time_scale, pFloat 1.0),
    (K.vorticity, pFloat 0.7),
    (K.use_adaptive_domain, pBool true),
    (K.adaptive_margin, pInt 4),
    (K.adaptive_additional_res, pInt 0),
    (K.use_noise, pBool false),
    (K.noise_strength, pFloat 1.0),
    (K.noise_scale, pFloat 2.5),
    (K.use_dissolve_smoke, pBool false),
    (K.dissolve_speed, pInt 30),
    (K.burning_rate, pFloat 1.2),
    (K.flame_smoke, pFloat 0.18),
    (K.flow_density, pFloat 1.0),
    (K.flow_temperature, pFloat 1.25),
    (K.flow_fuel, pFloat 1.15),
    (K.use_initial_velocity, pBool true),
    (K.velocity_factor, pFloat 1.2),
    (K.flame_strength, pFloat 35.0),
    (K.smoke_density, pFloat 2.0),
    (K.flame_color_low, pCol (0.07, 0.01, 0.0, 1.0)),
    (K.flame_color_mid, pCol (1.0, 0.42, 0.08, 1.0)),
    (K.flame_color_high, pCol (1.0, 0.95, 0.85, 1.0)) ]

/-- PRESET_OVERRIDES (src lines 325-416), an association list from preset id
to its override delta, in source order. -/
def PRESET_OVERRIDES : List (String × List (K × PVal)) :=
  [ ("CANDLE",
      [ (K.domain_size, pVec (1.5, 1.5, 2.5)),
        (K.emitter_scale, pVec (0.04, 0.04, 0.10)),
        (K.resolution_max, pInt 80),
        (K.vorticity, pFloat 0.25),
        (K.use_noise, pBool true),
        (K.noise_strength, pFloat 0.4),
        (K.noise_scale, pFloat 2.0),
        (K.burning_rate, pFloat 0.8),
        (K.flame_smoke, pFloat 0.05),
        (K.flow_density, pFloat 0.6),
        (K.flow_temperature, pFloat 1.0),
        (K.flow_fuel, pFloat 1.0),
        (K.flame_strength, pFloat 18.0),
        (K.smoke_density, pFloat 0.8),
        (K.use_dissolve_smoke, pBool true),
        (K.dissolve_speed, pInt 35),
        (K.use_initial_velocity, pBool false),
        (K.velocity_factor, pFloat 1.0),
        (K.flame_color_mid, pCol (1.0, 0.55, 0.12, 1.0)),
        (K.flame_color_high, pCol (1.0, 1.0, 1.0, 1.0)) ]),
    ("TORCH",
      [ (K.resolution_max, pInt 112),
        (K.vorticity, pFloat 0.8),
        (K.use_noise, pBool true),
        (K.noise_strength, pFloat 1.0),
        (K.noise_scale, pFloat 2.5),
        (K.velocity_factor, pFloat 1.5) ]),
    ("CAMPFIRE",
      [ (K.domain_size, pVec (4.0, 4.0, 4.0)),
        (K.emitter_scale, pVec (0.45, 0.45, 0.18)),
        (K.resolution_max, pInt 144),
        (K.vorticity, pFloat 1.5),
        (K.use_noise, pBool true),
        (K.noise_strength, pFloat 1.6),
        (K.noise_scale, pFloat 3.0),
        (K.burning_rate, pFloat 1.6),
        (K.flame_smoke, pFloat 0.35),
        (K.flow_density, pFloat 1.2),
        (K.flow_temperature, pFloat 1.35),
        (K.flow_fuel, pFloat 1.3),
        (K.flame_strength, pFloat 55.0),
        (K.smoke_density, pFloat 3.0),
        (K.velocity_factor, pFloat 1.0),
        (K.flame_color_mid, pCol (1.0, 0.38, 0.06, 1.0)) ]),
    ("BONFIRE",
      [ (K.domain_size, pVec (7.0, 7.0, 7.0)),
        (K.emitter_scale, pVec (0.9, 0.9, 0.35)),
        (K.resolution_max, pInt 160),
        (K.vorticity, pFloat 2.2),
        (K.use_noise, pBool true),
        (K.noise_strength, pFloat 2.0),
        (K.noise_scale, pFloat 3.5),
        (K.burning_rate, pFloat 2.1),
        (K.flame_smoke, pFloat 0.55),
        (K.flow_density, pFloat 1.4),
        (K.flow_temperature, pFloat 1.5),
        (K.flow_fuel, pFloat 1.5),
        (K.flame_strength, pFloat 75.0),
        (K.smoke_density, pFloat 4.2),
        (K.velocity_factor, pFloat 1.2),
        (K.flame_color_mid, pCol (1.0, 0.30, 0.05, 1.0)),
        (K.flame_color_high, pCol (1.0, 0.9, 0.8, 1.0)) ]),
    ("EXPLOSION",
      [ (K.domain_size, pVec (10.0, 10.0, 10.0)),
        (K.emitter_scale, pVec (0.6, 0.6, 0.6)),
        (K.resolution_max, pInt 176),
        (K.time_scale, pFloat 0.85),
        (K.vorticity, pFloat 3.0),
        (K.use_noise, pBool true),
        (K.noise_strength, pFloat 3.0),
        (K.noise_scale, pFloat 4.0),
        (K.burning_rate, pFloat 3.0),
        (K.flame_smoke, pFloat 0.9),
        (K.flow_density, pFloat 2.0),
        (K.flow_temperature, pFloat 2.0),
        (K.flow_fuel, pFloat 2.0),
        (K.flame_strength, pFloat 120.0),
        (K.smoke_density, pFloat 6.0),
        (K.use_dissolve_smoke, pBool true),
        (K.dissolve_speed, pInt 18),
        (K.velocity_factor, pFloat 2.0),
        (K.flame_color_low, pCol (0.10, 0.02, 0.0, 1.0)),
        (K.flame_color_mid, pCol (1.0, 0.22, 0.03, 1.0)),
        (K.flame_color_high, pCol (1.0, 0.85, 0.65, 1.0)) ]) ]

/-- PRESET_OVERRIDES.get(preset_id, \x7b\x7d): the override delta for a
preset id, empty for unknown ids. -/
def overridesFor (preset_id : String) : List (K × PVal) :=
  ((PRESET_OVERRIDES.lookup preset_id).getD [])

/-- One `setattr(settings, k, v)` guarded by `hasattr` and try/except: a write
with a value of the wrong shape for the field (setattr raising) leaves the
record unchanged. -/
def setSettingsField (s : Settings) (k : K) (v : PVal) : Settings :=
  match k, v with
  | K.domain_size, pVec x => { s with domain_size := x }
  | K.emitter_scale, pVec x => { s with emitter_scale := x }
  | K.resolution_max, pInt x => { s with resolution_max := x }
  | K.time_scale, pFloat x => { s with time_scale := x }
  | K.vorticity, pFloat x => { s with vorticity := x }
  | K.use_adaptive_domain, pBool x => { s with use_adaptive_domain := x }
  | K.adaptive_margin, pInt x => { s with adaptive_margin := x }
  | K.adaptive_additional_res, pInt x => { s with adaptive_additional_res := x }
  | K.use_noise, pBool x => { s with use_noise := x }
  | K.noise_strength, pFloat x => { s with noise_strength := x }
  | K.noise_scale, pFloat x => { s with noise_scale := x }
  | K.use_dissolve_smoke, pBool x => { s with use_dissolve_smoke := x }
  | K.dissolve_speed, pInt x => { s with dissolve_speed := x }
  | K.burning_rate, pFloat x => { s with burning_rate := x }
  | K.flame_smoke, pFloat x => { s with flame_smoke := x }
  | K.flow_density, pFloat x => { s with flow_density := x }
  | K.flow_temperature, pFloat x => { s with flow_temperature := x }
  | K.flow_fuel, pFloat x => { s with flow_fuel := x }
  | K.use_initial_velocity, pBool x => { s with use_initial_velocity := x }
  | K.velocity_factor, pFloat x => { s with velocity_factor := x }
  | K.flame_strength, pFloat x => { s with flame_strength := x }
  | K.smoke_density, pFloat x => { s with smoke_density := x }
  | K.flame_color_low, pCol x => { s with flame_color_low := x }
  | K.flame_color_mid, pCol x => { s with flame_color_mid := x }
  | K.flame_color_high, pCol x => { s with flame_color_high := x }
  | _, _ => s

/-- _apply_preset_to_settings (src lines 419-434): write every BASE_PRESET
entry field by field, then every entry of the named override delta on top. -/
def apply_preset_to_settings (s : Settings) (preset_id : String) : Settings :=
  let s := BASE_PRESET.foldl (fun a kv => setSettingsField a kv.1 kv.2) s
  (overridesFor preset_id).foldl (fun a kv => setSettingsField a kv.1 kv.2) s

example : (apply_preset_to_settings defaultSettings "CANDLE").resolution_max = 80 := by rfl
example : ∀ s : Settings, (apply_preset_to_settings s "CANDLE").vorticity = 0.25 := fun _ => rfl

/-- The simp set that evaluates one application of _apply_preset_to_settings
on a literal preset id. -/
theorem overridesFor_nil_of_unknown (pid : String)
    (h : pid ∉ ["CANDLE", "TORCH", "CAMPFIRE", "BONFIRE", "EXPLOSION"]) :
    overridesFor pid = [] := by
  simp only [List.mem_cons, not_or] at h
  obtain ⟨h1, h2, h3, h4, h5, -⟩ := h
  have b1 : (pid == "CANDLE") = false := beq_eq_false_iff_ne.mpr h1
  have b2 : (pid == "TORCH") = false := beq_eq_false_iff_ne.mpr h2
  have b3 : (pid == "CAMPFIRE") = false := beq_eq_false_iff_ne.mpr h3
  have b4 : (pid == "BONFIRE") = false := beq_eq_false_iff_ne.mpr h4
  have b5 : (pid == "EXPLOSION") = false := beq_eq_false_iff_ne.mpr h5
  simp [overridesFor, PRESET_OVERRIDES, List.lookup, b1, b2, b3, b4, b5]

/-- C1: for each of the five preset identifiers, _apply_preset_to_settings
overwrites exactly the fields named in BASE_PRESET or in that preset's
override delta (base first, then the delta on top, so the record literal
below carries the override value wherever the delta names the field and the
base value elsewhere), and the settings fields named in neither table
(preset, domain_object_name, emitter_object_name, ui_show_advanced,
apply_scale_on_update, cache_directory) keep their prior values. -/
theorem c1_preset_apply_writes_exactly_base_union_override :
    (∀ s : Settings, apply_preset_to_settings s "CANDLE" =
      { s with
        domain_size := (1.5, 1.5, 2.5), emitter_scale := (0.04, 0.04, 0.10),
        resolution_max := 80, time_scale := 1.0, vorticity := 0.25,
        use_adaptive_domain := true, adaptive_margin := 4, adaptive_additional_res := 0,
        use_noise := true, noise_strength := 0.4, noise_scale := 2.0,
        use_dissolve_smoke := true, dissolve_speed := 35,
        burning_rate := 0.8, flame_smoke := 0.05,
        flow_density := 0.6, flow_temperature := 1.0, flow_fuel := 1.0,
        use_initial_velocity := false, velocity_factor := 1.0,
        flame_strength := 18.0, smoke_density := 0.8,
        flame_color_low := (0.07, 0.01, 0.0, 1.0),
        flame_color_mid := (1.0, 0.55, 0.12, 1.0),
        flame_color_high := (1.0, 1.0, 1.0, 1.0) }) ∧
    (∀ s : Settings, apply_preset_to_settings s "TORCH" =
      { s with
        domain_size := (2.0, 2.0, 3.0), emitter_scale := (0.07, 0.07, 0.25),
        resolution_max := 112, time_scale := 1.0, vorticity := 0.8,
        use_adaptive_domain := true, adaptive_margin := 4, adaptive_additional_res := 0,
        use_noise := true, noise_strength := 1.0, noise_scale := 2.5,
        use_dissolve_smoke := false, dissolve_speed := 30,
        burning_rate := 1.2, flame_smoke := 0.18,
        flow_density := 1.0, flow_temperature := 1.25, flow_fuel := 1.15,
        use_initial_velocity := true, velocity_factor := 1.5,
        flame_strength := 35.0, smoke_density := 2.0,
        flame_color_low := (0.07, 0.01, 0.0, 1.0),
        flame_color_mid := (1.0, 0.42, 0.08, 1.0),
        flame_color_high := (1.0, 0.95, 0.85, 1.0) }) ∧
    (∀ s : Settings, apply_preset_to_settings s "CAMPFIRE" =
      { s with
        domain_size := (4.0, 4.0, 4.0), emitter_scale := (0.45, 0.45, 0.18),
        resolution_max := 144, time_scale := 1.0, vorticity := 1.5,
        use_adaptive_domain := true, adaptive_margin := 4, adaptive_additional_res := 0,
        use_noise := true, noise_strength := 1.6, noise_scale := 3.0,
        use_dissolve_smoke := false, dissolve_speed := 30,
        burning_rate := 1.6, flame_smoke := 0.35,
        flow_density := 1.2, flow_temperature := 1.35, flow_fuel := 1.3,
        use_initial_velocity := true, velocity_factor := 1.0,
        flame_strength := 55.0, smoke_density := 3.0,
        flame_color_low := (0.07, 0.01, 0.0, 1.0),
        flame_color_mid := (1.0, 0.38, 0.06, 1.0),
        flame_color_high := (1.0, 0.95, 0.85, 1.0) }) ∧
    (∀ s : Settings, apply_preset_to_settings s "BONFIRE" =
      { s with
        domain_size := (7.0, 7.0, 7.0), emitter_scale := (0.9, 0.9, 0.35),
        resolution_max := 160, time_scale := 1.0, vorticity := 2.2,
        use_adaptive_domain := true, adaptive_margin := 4, adaptive_additional_res := 0,
        use_noise := true, noise_strength := 2.0, noise_scale := 3.5,
        use_dissolve_smoke := false, dissolve_speed := 30,
        burning_rate := 2.1, flame_smoke := 0.55,
        flow_density := 1.4, flow_temperature := 1.5, flow_fuel := 1.5,
        use_initial_velocity := true, velocity_factor := 1.2,
        flame_strength := 75.0, smoke_density := 4.2,
        flame_color_low := (0.07, 0.01, 0.0, 1.0),
        flame_color_mid := (1.0, 0.30, 0.05, 1.0),
        flame_color_high := (1.0, 0.9, 0.8, 1.0) }) ∧
    (∀ s : Settings, apply_preset_to_settings s "EXPLOSION" =
      { s with
        domain_size := (10.0, 10.0, 10.0), emitter_scale := (0.6, 0.6, 0.6),
        resolution_max := 176, time_scale := 0.85, vorticity := 3.0,
        use_adaptive_domain := true, adaptive_margin := 4, adaptive_additional_res := 0,
        use_noise := true, noise_strength := 3.0, noise_scale := 4.0,
        use_dissolve_smoke := true, dissolve_speed := 18,
        burning_rate := 3.0, flame_smoke := 0.9,
        flow_density := 2.0, flow_temperature := 2.0, flow_fuel := 2.0,
        use_initial_velocity := true, velocity_factor := 2.0,
        flame_strength := 120.0, smoke_density := 6.0,
        flame_color_low := (0.10, 0.02, 0.0, 1.0),
        flame_color_mid := (1.0, 0.22, 0.03, 1.0),
        flame_color_high := (1.0, 0.85, 0.65, 1.0) }) := by
  refine ⟨fun s => ?_, fun s => ?_, fun s => ?_, fun s => ?_, fun s => ?_⟩ <;>
    simp only [apply_preset_to_settings, overridesFor, PRESET_OVERRIDES, BASE_PRESET,
      List.lookup, List.foldl, setSettingsField]

/-- C2: after applying "CANDLE" to any settings record the record has
resolution_max = 80, vorticity = 0.25, flame_strength = 18.0 and
use_dissolve_smoke = true; after applying "EXPLOSION" it has
resolution_max = 176, flame_strength = 120.0 and smoke_density = 6.0. -/
theorem c2_candle_and_explosion_example_values :
    ∀ s : Settings,
      ((apply_preset_to_settings s "CANDLE").resolution_max = 80 ∧
       (apply_preset_to_settings s "CANDLE").vorticity = 0.25 ∧
       (apply_preset_to_settings s "CANDLE").flame_strength = 18.0 ∧
       (apply_preset_to_settings s "CANDLE").use_dissolve_smoke = true) ∧
      ((apply_preset_to_settings s "EXPLOSION").resolution_max = 176 ∧
       (apply_preset_to_settings s "EXPLOSION").flame_strength = 120.0 ∧
       (apply_preset_to_settings s "EXPLOSION").smoke_density = 6.0) := by
  intro s
  refine ⟨⟨?_, ?_, ?_, ?_⟩, ?_, ?_, ?_⟩ <;> rfl

/-- C10: a preset identifier that is not one of the five fixed names applies
the base table alone: every field named in BASE_PRESET is set to its base
value and all other settings fields are unchanged (and the call is a total
function, so no error is raised). -/
theorem c10_unknown_preset_applies_base_only (pid : String)
    (h : pid ∉ ["CANDLE", "TORCH", "CAMPFIRE", "BONFIRE", "EXPLOSION"]) :
    ∀ s : Settings, apply_preset_to_settings s pid =
      { s with
        domain_size := (2.0, 2.0, 3.0), emitter_scale := (0.07, 0.07, 0.25),
        resolution_max := 96, time_scale := 1.0, vorticity := 0.7,
        use_adaptive_domain := true, adaptive_margin := 4, adaptive_additional_res := 0,
        use_noise := false, noise_strength := 1.0, noise_scale := 2.5,
        use_dissolve_smoke := false, dissolve_speed := 30,
        burning_rate := 1.2, flame_smoke := 0.18,
        flow_density := 1.0, flow_temperature := 1.25, flow_fuel := 1.15,
        use_initial_velocity := true, velocity_factor := 1.2,
        flame_strength := 35.0, smoke_density := 2.0,
        flame_color_low := (0.07, 0.01, 0.0, 1.0),
        flame_color_mid := (1.0, 0.42, 0.08, 1.0),
        flame_color_high := (1.0, 0.95, 0.85, 1.0) } := by
  intro s
  rw [apply_preset_to_settings, overridesFor_nil_of_unknown pid h]
  simp only [BASE_PRESET, List.foldl, setSettingsField]

/-- Witness for C10 at the concrete unknown preset id "FIREBALL" and the
default settings record. -/
theorem c10_unknown_preset_applies_base_only_witness :
    apply_preset_to_settings defaultSettings "FIREBALL" =
      { defaultSettings with
        domain_size := (2.0, 2.0, 3.0), emitter_scale := (0.07, 0.07, 0.25),
        resolution_max := 96, time_scale := 1.0, vorticity := 0.7,
        use_adaptive_domain := true, adaptive_margin := 4, adaptive_additional_res := 0,
        use_noise := false, noise_strength := 1.0, noise_scale := 2.5,
        use_dissolve_smoke := false, dissolve_speed := 30,
        burning_rate := 1.2, flame_smoke := 0.18,
        flow_density := 1.0, flow_temperature := 1.25, flow_fuel := 1.15,
        use_initial_velocity := true, velocity_factor := 1.2,
        flame_strength := 35.0, smoke_density := 2.0,
        flame_color_low := (0.07, 0.01, 0.0, 1.0),
        flame_color_mid := (1.0, 0.42, 0.08, 1.0),
        flame_color_high := (1.0, 0.95, 0.85, 1.0) } :=
  c10_unknown_preset_applies_base_only "FIREBALL" (by decide) defaultSettings

/-- A color ramp stop: (position, RGBA color).  The host's ramp element
collection is modelled as an index-stable list: elements.new(pos) appends a
stop at the given position with the host default color, elements.remove of
the last entry drops it but fails on the last remaining stop. -/
abbrev RampElem : Type := ℚ × C4

/-- Host behaviour of cr.elements.new(pos): a fresh stop at the given
position (the default color is irrelevant here: every surviving stop is
overwritten before _set_color_ramp_elements returns). -/
def newRampElem (pos : ℚ) : RampElem := (pos, (0.0, 0.0, 0.0, 1.0))

/-- The grow loop of _set_color_ramp_elements (src lines 99-100):
`while len(cr.elements) < len(desired): cr.elements.new(desired[len][0])`,
run with enough fuel to reach the desired length. -/
def growAux (cur des : List RampElem) : Nat → List RampElem
  | 0 => cur
  | n + 1 =>
    if h : cur.length < des.length then
      growAux (cur ++ [newRampElem (des.get ⟨cur.length, h⟩).1]) des n
    else cur

/-- The shrink loop of _set_color_ramp_elements (src lines 102-106):
`while len(cr.elements) > len(desired): remove last, break on failure`;
removing the last remaining stop fails (host restriction), which the code
turns into a break. -/
def shrinkAux (cur : List RampElem) (target : Nat) : Nat → List RampElem
  | 0 => cur
  | n + 1 =>
    if target < cur.length then
      if cur.length ≤ 1 then cur
      else shrinkAux cur.dropLast target n
    else cur

/-- The apply loop of _set_color_ramp_elements (src lines 109-114): for each
index into `desired`, overwrite that stop's position and color; a write past
the end of the current stops raises and is skipped by the except clause. -/
def overwriteVals : List RampElem → List RampElem → List RampElem
  | cur, [] => cur
  | [], _ => []
  | _ :: cur, d :: des => d :: overwriteVals cur des

/-- _set_color_ramp_elements (src lines 77-114). -/
def set_color_ramp_elements (cur des : List RampElem) : List RampElem :=
  if des.isEmpty then cur
  else
    let cur1 := if cur.length = 0 then [newRampElem 0.0] else cur
    let cur2 := growAux cur1 des des.length
    let cur3 := shrinkAux cur2 des.length cur2.length
    overwriteVals cur3 des

theorem growAux_length (des : List RampElem) :
    ∀ (n : Nat) (cur : List RampElem), des.length ≤ cur.length + n →
      (growAux cur des n).length = max cur.length des.length := by
  intro n
  induction n with
  | zero =>
    intro cur h
    simp only [growAux]
    omega
  | succ n ih =>
    intro cur h
    by_cases hlt : cur.length < des.length
    · simp only [growAux, dif_pos hlt]
      rw [ih]
      · simp only [List.length_append, List.length_cons, List.length_nil]
        omega
      · simp only [List.length_append, List.length_cons, List.length_nil]
        omega
    · simp only [growAux, dif_neg hlt]
      omega

theorem shrinkAux_length (target : Nat) (htgt : 1 ≤ target) :
    ∀ (n : Nat) (cur : List RampElem), cur.length ≤ target + n →
      (shrinkAux cur target n).length = min cur.length target := by
  intro n
  induction n with
  | zero =>
    intro cur h
    simp only [shrinkAux]
    omega
  | succ n ih =>
    intro cur h
    by_cases hlt : target < cur.length
    · have hgt : ¬cur.length ≤ 1 := by omega
      simp only [shrinkAux, if_pos hlt, if_neg hgt]
      rw [ih]
      · rw [List.length_dropLast]
        omega
      · rw [List.length_dropLast]
        omega
    · simp only [shrinkAux, if_neg hlt]
      omega

theorem overwriteVals_eq_of_length :
    ∀ cur des : List RampElem, cur.length = des.length → overwriteVals cur des = des := by
  intro cur
  induction cur with
  | nil =>
    intro des h
    cases des with
    | nil => rfl
    | cons d ds => simp at h
  | cons c cs ih =>
    intro des h
    cases des with
    | nil => simp at h
    | cons d ds =>
      simp only [overwriteVals, List.cons.injEq, true_and]
      exact ih ds (by simpa using h)

/-- _set_color_ramp_elements reconciles any prior stop list to exactly the
desired (nonempty) stops. -/
theorem set_color_ramp_elements_eq_desired (cur des : List RampElem)
    (hdes : des ≠ []) : set_color_ramp_elements cur des = des := by
  have hne : ¬des.isEmpty := by simpa [List.isEmpty_iff] using hdes
  have hlen : 1 ≤ des.length := by
    cases des with
    | nil => exact absurd rfl hdes
    | cons d ds => simp
  rw [set_color_ramp_elements, if_neg hne]
  set cur1 := if cur.length = 0 then [newRampElem 0.0] else cur with hcur1
  have h2 : (growAux cur1 des des.length).length = max cur1.length des.length :=
    growAux_length des des.length cur1 (by omega)
  have h3 : (shrinkAux (growAux cur1 des des.length) des.length
      (growAux cur1 des des.length).length).length
      = min (growAux cur1 des des.length).length des.length :=
    shrinkAux_length des.length hlen (growAux cur1 des des.length).length
      (growAux cur1 des des.length) (by omega)
  refine overwriteVals_eq_of_length _ des ?_
  rw [h3, h2]
  omega

/-- The desired flame color ramp built by _ensure_domain_material
(src lines 180-184): three stops at 0.0 / 0.25 / 1.0 with the three
settings-controlled colors. -/
def flameRamp (s : Settings) : List RampElem :=
  [(0.0, s.flame_color_low), (0.25, s.flame_color_mid), (1.0, s.flame_color_high)]

/-- C7: from every prior stop list (length 0, 1, 2, 5 or anything else),
color-ramp reconciliation with the three settings-derived stops leaves
exactly 3 stops carrying those positions and colors in index order. -/
theorem c7_color_ramp_reconciles_to_exactly_three_stops :
    ∀ (cur : List RampElem) (s : Settings),
      set_color_ramp_elements cur (flameRamp s) =
        [(0.0, s.flame_color_low), (0.25, s.flame_color_mid), (1.0, s.flame_color_high)] ∧
      (set_color_ramp_elements cur (flameRamp s)).length = 3 := by
  intro cur s
  have h := set_color_ramp_elements_eq_desired cur (flameRamp s) (by simp [flameRamp])
  exact ⟨h, by rw [h]; rfl⟩

/-- Fixed names (src lines 28-31). -/
def COLLECTION_NAME : String := "FireVFX"

def DOMAIN_NAME : String := "FireVFX_Domain"

def EMITTER_NAME : String := "FireVFX_Emitter"

def MATERIAL_NAME : String := "FireVFX_Volume"

/-- A shader node.  Only the attributes the source writes are modelled; the
unused fields keep neutral defaults. -/
structure SNode where
  typ : String
  location : ℚ × ℚ
  attribute_name : String := ""
  operation : String := ""
  input1_default : ℚ := 0.0
  elements : List RampElem := []
  anisotropy_default : ℚ := 0.0
  color_default : C4 := (0.0, 0.0, 0.0, 1.0)
  deriving DecidableEq

/-- A node link; nodes are addressed by their creation index in the node
list, sockets by the index or name the source uses. -/
structure SLink where
  fromNode : Nat
  fromSocket : String
  toNode : Nat
  toSocket : String
  deriving DecidableEq

/-- A material datablock with its node graph. -/
structure Material where
  name : String
  use_nodes : Bool
  nodes : List SNode
  links : List SLink
  deriving DecidableEq

/-- Host default stops of a freshly created ShaderNodeValToRGB color ramp
(two stops, black at 0 and white at 1). -/
def hostDefaultRampStops : List RampElem :=
  [(0.0, (0.0, 0.0, 0.0, 1.0)), (1.0, (1.0, 1.0, 1.0, 1.0))]

/-- _build_volume_shader (src lines 117-172): clear the node graph and
rebuild the fixed topology.  Node indices in creation order: 0 output,
1 principled volume, 2 attribute "density", 3 attribute "flame",
4 color ramp, 5 flame multiply, 6 density multiply. -/
def build_volume_shader (m : Material) (flame_strength smoke_density : ℚ)
    (flame_ramp : List RampElem) : Material :=
  { m with
    nodes := [
      { typ := "ShaderNodeOutputMaterial", location := (520, 0) },
      { typ := "ShaderNodeVolumePrincipled", location := (260, 0),
        anisotropy_default := 0.2, color_default := (0.2, 0.2, 0.2, 1.0) },
      { typ := "ShaderNodeAttribute", location := (-520, -120), attribute_name := "density" },
      { typ := "ShaderNodeAttribute", location := (-520, 140), attribute_name := "flame" },
      { typ := "ShaderNodeValToRGB", location := (-240, 140),
        elements := set_color_ramp_elements hostDefaultRampStops flame_ramp },
      { typ := "ShaderNodeMath", location := (-20, 140), operation := "MULTIPLY",
        input1_default := flame_strength },
      { typ := "ShaderNodeMath", location := (-20, -120), operation := "MULTIPLY",
        input1_default := smoke_density } ],
    links := [
      { fromNode := 1, fromSocket := "0", toNode := 0, toSocket := "1" },
      { fromNode := 3, fromSocket := "Fac", toNode := 4, toSocket := "0" },
      { fromNode := 4, fromSocket := "Color", toNode := 1, toSocket := "Emission Color" },
      { fromNode := 3, fromSocket := "Fac", toNode := 5, toSocket := "0" },
      { fromNode := 5, fromSocket := "Value", toNode := 1, toSocket := "Emission Strength" },
      { fromNode := 2, fromSocket := "Fac", toNode := 6, toSocket := "0" },
      { fromNode := 6, fromSocket := "Value", toNode := 1, toSocket := "Density" } ] }

/-- Fluid domain configuration record (the domain_settings fields the source
writes, src lines 219-247). -/
structure DomainSettings where
  domain_type : String
  cache_directory : String
  cache_type : String
  resolution_max : Int
  time_scale : ℚ
  vorticity : ℚ
  use_adaptive_domain : Bool
  additional_res : Int
  adapt_margin : Int
  use_noise : Bool
  noise_strength : ℚ
  noise_scale : ℚ
  use_dissolve_smoke : Bool
  dissolve_speed : Int
  use_reaction : Bool
  burning_rate : ℚ
  flame_smoke : ℚ
  deriving DecidableEq

/-- Fluid flow configuration record (the flow_settings fields the source
writes, src lines 263-281). -/
structure FlowSettings where
  flow_type : String
  flow_behavior : String
  density : ℚ
  temperature : ℚ
  fuel_amount : ℚ
  use_initial_velocity : Bool
  velocity_factor : ℚ
  deriving DecidableEq

/-- Host defaults of a fresh fluid modifier's domain record (every one of
these is overwritten by _apply_domain_settings before it is observed). -/
def hostDefaultDomainSettings : DomainSettings where
  domain_type := "GAS"
  cache_directory := ""
  cache_type := "REPLAY"
  resolution_max := 32
  time_scale := 1.0
  vorticity := 0.0
  use_adaptive_domain := false
  additional_res := 0
  adapt_margin := 4
  use_noise := false
  noise_strength := 1.0
  noise_scale := 2.0
  use_dissolve_smoke := false
  dissolve_speed := 5
  use_reaction := false
  burning_rate := 0.75
  flame_smoke := 1.0

/-- Host defaults of a fresh fluid modifier's flow record (every one of
these is overwritten by _apply_flow_settings before it is observed). -/
def hostDefaultFlowSettings : FlowSettings where
  flow_type := "SMOKE"
  flow_behavior := "GEOMETRY"
  density := 1.0
  temperature := 1.0
  fuel_amount := 1.0
  use_initial_velocity := false
  velocity_factor := 0.0

/-- An object modifier.  Only fluid modifiers matter to the source; the
domain/flow records are always present in the model and are read through
`fluid_type` exactly as the source reads `domain_settings`/`flow_settings`
after setting the type. -/
structure Modifier where
  name : String
  type : String
  fluid_type : String
  domain_settings : DomainSettings
  flow_settings : FlowSettings
  deriving DecidableEq

/-- obj.modifiers.new(name="Fluid", type="FLUID") (src line 205). -/
def defaultFluidModifier : Modifier where
  name := "Fluid"
  type := "FLUID"
  fluid_type := "NONE"
  domain_settings := hostDefaultDomainSettings
  flow_settings := hostDefaultFlowSettings

/-- An object in the host document.  Objects are identified by `id`
(modelling host object identity/pointers); `name` is the mutable datablock
name create_rig and _find_rig look objects up by. -/
structure Obj where
  id : Nat
  name : String
  location : V3
  scale : V3
  applied_scale : V3
  display_type : String
  mesh_kind : String
  modifiers : List Modifier
  material_slots : List String
  deriving DecidableEq

/-- A collection: a named set (ordered list) of member object ids. -/
structure Collection where
  name : String
  members : List Nat
  deriving DecidableEq

/-- The host document state touched by the operators. -/
structure Doc where
  objects : List Obj
  collections : List Collection
  scene_children : List String
  root_members : List Nat
  materials : List Material
  next_id : Nat
  active : Option Nat
  selected : List Nat
  deriving DecidableEq

/-- bpy.data.objects.get(name): first object with the given name. -/
def dataObjectsGet (doc : Doc) (name : String) : Option Obj :=
  doc.objects.find? (fun o => o.name == name)

/-- Resolve an object by identity. -/
def findById (doc : Doc) (i : Nat) : Option Obj :=
  doc.objects.find? (fun o => o.id == i)

/-- Mutate the object with the given id in place. -/
def updateObj (doc : Doc) (i : Nat) (f : Obj → Obj) : Doc :=
  { doc with objects := doc.objects.map (fun o => if o.id == i then f o else o) }

/-- First index whose entry satisfies p (the loop `for m in mods: if p(m):
return m` position). -/
def firstIdxBy (p : α → Bool) : List α → Option Nat
  | [] => none
  | a :: l => if p a then some 0 else (firstIdxBy p l).map (fun n => n + 1)

/-- Replace the i-th entry of a list by f applied to it (no-op out of
bounds). -/
def modifyAt : List α → Nat → (α → α) → List α
  | [], _, _ => []
  | a :: l, 0, f => f a :: l
  | a :: l, n + 1, f => a :: modifyAt l n f

/-- _ensure_collection (src lines 46-51): reuse the named collection or
create it and link it under the scene root. -/
def ensure_collection (doc : Doc) (name : String) : Doc :=
  match doc.collections.find? (fun c => c.name == name) with
  | some _ => doc
  | none =>
    { doc with collections := doc.collections ++ [{ name := name, members := [] }],
               scene_children := doc.scene_children ++ [name] }

/-- _link_to_collection (src lines 54-66): unlink the object from every
collection it is in (including the scene root), then link it to the target
collection (col.objects.link raises if already linked, which the unlinking
has just made impossible; the guard mirrors that). -/
def link_to_collection (doc : Doc) (objId : Nat) (colName : String) : Doc :=
  let cols := doc.collections.map (fun c =>
    { c with members := c.members.filter (fun m => m != objId) })
  let root := doc.root_members.filter (fun m => m != objId)
  let cols := cols.map (fun c =>
    if c.name == colName then
      { c with members := if objId ∈ c.members then c.members else c.members ++ [objId] }
    else c)
  { doc with collections := cols, root_members := root }

/-- Host naming of a fresh datablock: base name, then base.1, base.2, ...
(the exact suffix format is immaterial: the fresh object is renamed to a
fixed free name right away). -/
def numberedName (base : String) : Nat → String
  | 0 => base
  | n + 1 => base ++ "." ++ toString (n + 1)

/-- First free numbered name for a new datablock. -/
def freshName (doc : Doc) (base : String) : String :=
  match (List.range (doc.objects.length + 1)).find?
      (fun k => !(doc.objects.any (fun o => o.name == numberedName base k))) with
  | some k => numberedName base k
  | none => base

/-- bpy.ops.mesh.primitive_*_add: a fresh object at the given location,
linked to the scene root, selected and active (src lines 582, 587). -/
def primitiveAdd (doc : Doc) (base : String) (kind : String) (loc : V3) : Doc × Nat :=
  let i := doc.next_id
  let o : Obj :=
    { id := i, name := freshName doc base, location := loc, scale := (1.0, 1.0, 1.0),
      applied_scale := (1.0, 1.0, 1.0), display_type := "TEXTURED", mesh_kind := kind,
      modifiers := [], material_slots := [] }
  ({ doc with objects := doc.objects ++ [o], root_members := doc.root_members ++ [i],
              next_id := i + 1, active := some i, selected := [i] }, i)

/-- obj.name = newName (src lines 584, 589; the target name is free in both
call sites, so host collision suffixing never fires). -/
def renameObject (doc : Doc) (i : Nat) (newName : String) : Doc :=
  updateObj doc i (fun o => { o with name := newName })

/-- _ensure_fluid_modifier (src lines 199-205): return (object, index of the
first FLUID modifier), appending a fresh fluid modifier when none exists. -/
def ensure_fluid_modifier (obj : Obj) : Obj × Nat :=
  match firstIdxBy (fun m => m.type == "FLUID") obj.modifiers with
  | some i => (obj, i)
  | none => ({ obj with modifiers := obj.modifiers ++ [defaultFluidModifier] }, obj.modifiers.length)

/-- The per-field writes of _apply_domain_settings on the resolved modifier
(src lines 213-247), in source order. -/
def apply_domain_settings_mod (s : Settings) (m : Modifier) : Modifier :=
  let m := { m with fluid_type := "DOMAIN" }
  let ds := m.domain_settings
  let ds := { ds with domain_type := "GAS" }
  let ds := { ds with cache_directory := s.cache_directory, cache_type := "MODULAR" }
  let ds := { ds with resolution_max := s.resolution_max, time_scale := s.time_scale,
                      vorticity := s.vorticity }
  let ds := { ds with use_adaptive_domain := s.use_adaptive_domain,
                      additional_res := s.adaptive_additional_res,
                      adapt_margin := s.adaptive_margin }
  let ds := { ds with use_noise := s.use_noise, noise_strength := s.noise_strength,
                      noise_scale := s.noise_scale }
  let ds := { ds with use_dissolve_smoke := s.use_dissolve_smoke,
                      dissolve_speed := s.dissolve_speed }
  let ds := { ds with use_reaction := true, burning_rate := s.burning_rate,
                      flame_smoke := s.flame_smoke }
  { m with domain_settings := ds }

/-- _apply_domain_settings (src lines 208-247). -/
def apply_domain_settings (obj : Obj) (s : Settings) : Obj :=
  let oi := ensure_fluid_modifier obj
  { oi.1 with modifiers := modifyAt oi.1.modifiers oi.2 (apply_domain_settings_mod s) }

/-- The per-field writes of _apply_flow_settings on the resolved modifier
(src lines 255-281), in source order; the host accepts flow_type "FIRE"
(the "SMOKE" fallback is for older hosts and is not modelled). -/
def apply_flow_settings_mod (s : Settings) (m : Modifier) : Modifier :=
  let m := { m with fluid_type := "FLOW" }
  let fs := m.flow_settings
  let fs := { fs with flow_type := "FIRE" }
  let fs := { fs with flow_behavior := "INFLOW" }
  let fs := { fs with density := s.flow_density, temperature := s.flow_temperature,
                      fuel_amount := s.flow_fuel }
  let fs := { fs with use_initial_velocity := s.use_initial_velocity,
                      velocity_factor := s.velocity_factor }
  { m with flow_settings := fs }

/-- _apply_flow_settings (src lines 250-281). -/
def apply_flow_settings (obj : Obj) (s : Settings) : Obj :=
  let oi := ensure_fluid_modifier obj
  { oi.1 with modifiers := modifyAt oi.1.modifiers oi.2 (apply_flow_settings_mod s) }

/-- _get_or_create_material (src lines 69-74): reuse or create the named
material and enable use_nodes; returns the material list and the index of
the material. -/
def get_or_create_material (mats : List Material) (name : String) : List Material × Nat :=
  match firstIdxBy (fun m => m.name == name) mats with
  | some i => (modifyAt mats i (fun m => { m with use_nodes := true }), i)
  | none => (mats ++ [{ name := name, use_nodes := true, nodes := [], links := [] }], mats.length)

/-- The slot assignment at the end of _ensure_domain_material (src lines
192-196): append the shared material when the object has no slot, else
replace slot 0. -/
def assignFirstSlot (o : Obj) : Obj :=
  if o.material_slots.isEmpty then { o with material_slots := [MATERIAL_NAME] }
  else { o with material_slots := o.material_slots.set 0 MATERIAL_NAME }

/-- _ensure_domain_material (src lines 175-196): get or create the shared
material, rebuild its volume shader from settings, and make it the domain
object's first material slot (append when there is none). -/
def ensure_domain_material (doc : Doc) (s : Settings) (domId : Nat) : Doc :=
  match findById doc domId with
  | none => doc
  | some _ =>
    let mi := get_or_create_material doc.materials MATERIAL_NAME
    let mats := modifyAt mi.1 mi.2
      (fun m => build_volume_shader m s.flame_strength s.smoke_density (flameRamp s))
    let doc := { doc with materials := mats }
    updateObj doc domId assignFirstSlot

/-- Componentwise product of two scale vectors. -/
def mulV3 (a b : V3) : V3 := (a.1 * b.1, a.2.1 * b.2.1, a.2.2 * b.2.2)

/-- obj.select_set(True) plus making the object active (src lines 602-603,
608-609; nothing is deselected first). -/
def selectAndActivate (doc : Doc) (i : Nat) : Doc :=
  { doc with active := some i,
             selected := if i ∈ doc.selected then doc.selected else doc.selected ++ [i] }

/-- bpy.ops.object.transform_apply(scale=True): for every selected object,
bake the object scale into the mesh data and reset the object scale to 1. -/
def transformApplyScaleSelected (doc : Doc) : Doc :=
  { doc with objects := doc.objects.map (fun o =>
      if o.id ∈ doc.selected then
        { o with applied_scale := mulV3 o.applied_scale o.scale, scale := (1.0, 1.0, 1.0) }
      else o) }

/-- The optional apply-scale block, identical in create_rig (src 600-612)
and update_rig (src 650-663): activate and select the domain, apply scale,
then the same for the emitter. -/
def applyScaleBlock (doc : Doc) (domId emiId : Nat) : Doc :=
  let doc := selectAndActivate doc domId
  let doc := transformApplyScaleSelected doc
  let doc := selectAndActivate doc emiId
  transformApplyScaleSelected doc

/-- Write an object's scale. -/
def setObjScale (doc : Doc) (i : Nat) (v : V3) : Doc :=
  updateObj doc i (fun o => { o with scale := v })

/-- FIREVFX_OT_create_rig.execute from the "Apply sizes" comment onward
(src lines 595-627): sizes, optional scale application, fluid settings,
shader, storing the object names into settings, display hints. -/
def create_rig_from_apply_sizes (doc : Doc) (s : Settings) (domId emiId : Nat) :
    Doc × Settings :=
  let doc := setObjScale doc domId
    (s.domain_size.1 / 2.0, s.domain_size.2.1 / 2.0, s.domain_size.2.2 / 2.0)
  let doc := setObjScale doc emiId s.emitter_scale
  let doc := if s.apply_scale_on_update then applyScaleBlock doc domId emiId else doc
  let doc := updateObj doc domId (fun o => apply_domain_settings o s)
  let doc := updateObj doc emiId (fun o => apply_flow_settings o s)
  let doc := ensure_domain_material doc s domId
  let s := { s with domain_object_name := (findById doc domId).elim "" Obj.name,
                    emitter_object_name := (findById doc emiId).elim "" Obj.name }
  let doc := updateObj doc domId (fun o => { o with display_type := "WIRE" })
  let doc := updateObj doc emiId (fun o => { o with display_type := "SOLID" })
  (doc, s)

/-- FIREVFX_OT_update_rig.execute from the transform update onward
(src lines 647-667): sizes, optional scale application, fluid settings,
shader; update_rig stores no names and writes no display hints. -/
def update_rig_from_apply_sizes (doc : Doc) (s : Settings) (domId emiId : Nat) : Doc :=
  let doc := setObjScale doc domId
    (s.domain_size.1 / 2.0, s.domain_size.2.1 / 2.0, s.domain_size.2.2 / 2.0)
  let doc := setObjScale doc emiId s.emitter_scale
  let doc := if s.apply_scale_on_update then applyScaleBlock doc domId emiId else doc
  let doc := updateObj doc domId (fun o => apply_domain_settings o s)
  let doc := updateObj doc emiId (fun o => apply_flow_settings o s)
  ensure_domain_material doc s domId

/-- FIREVFX_OT_create_rig.execute up to the "Apply sizes" comment
(src lines 574-593): ensure the collection, look up or create the two
fixed-name objects, and move both into the collection.  Returns the document
and the ids of the domain and emitter objects. -/
def create_rig_head (doc : Doc) : Doc × Nat × Nat :=
  let doc := ensure_collection doc COLLECTION_NAME
  let di :=
    match dataObjectsGet doc DOMAIN_NAME with
    | some o => (doc, o.id)
    | none =>
      let dn := primitiveAdd doc "Cube" "CUBE" (0.0, 0.0, 1.0)
      (renameObject dn.1 dn.2 DOMAIN_NAME, dn.2)
  let doc := di.1
  let domId := di.2
  let ei :=
    match dataObjectsGet doc EMITTER_NAME with
    | some o => (doc, o.id)
    | none =>
      let en := primitiveAdd doc "Cylinder" "CYLINDER" (0.0, 0.0, 0.25)
      (renameObject en.1 en.2 EMITTER_NAME, en.2)
  let doc := ei.1
  let emiId := ei.2
  let doc := link_to_collection doc domId COLLECTION_NAME
  let doc := link_to_collection doc emiId COLLECTION_NAME
  (doc, domId, emiId)

/-- FIREVFX_OT_create_rig.execute (src lines 570-629); always FINISHED. -/
def create_rig (doc : Doc) (s : Settings) : Doc × Settings × String :=
  let hd := create_rig_head doc
  let ds := create_rig_from_apply_sizes hd.1 s hd.2.1 hd.2.2
  (ds.1, ds.2, "FINISHED")

/-- _find_rig (src lines 284-289): resolve the stored names (an empty stored
name resolves to nothing). -/
def find_rig (doc : Doc) (s : Settings) : Option Obj × Option Obj :=
  ((if s.domain_object_name ≠ "" then dataObjectsGet doc s.domain_object_name else none),
   (if s.emitter_object_name ≠ "" then dataObjectsGet doc s.emitter_object_name else none))

/-- FIREVFX_OT_update_rig.execute (src lines 637-669): warn and cancel
without touching anything when the stored names do not both resolve,
otherwise run the shared tail.  The result carries the document, the
settings record, the status, and the reported messages. -/
def update_rig (doc : Doc) (s : Settings) :
    Doc × Settings × String × List (String × String) :=
  match find_rig doc s with
  | (some dom, some emi) =>
    (update_rig_from_apply_sizes doc s dom.id emi.id, s, "FINISHED", [])
  | _ => (doc, s, "CANCELLED", [("WARNING", "No rig found. Click Create Fire Rig first.")])

/-- A host simulation call issued by bake_all. -/
inductive SimCall where
  | bake
  | free
  deriving DecidableEq

/-- Outcomes of the host operations bake_all may invoke: whether the first
bpy.ops.fluid.bake_all raises, whether bpy.ops.fluid.free_all raises,
whether the retried bake raises, and whether the selection housekeeping
succeeds. -/
structure HostSim where
  bake1_ok : Bool
  free_ok : Bool
  bake2_ok : Bool
  select_ok : Bool
  deriving DecidableEq

/-- Result of FIREVFX_OT_bake_all.execute: final document, status, reported
messages, and the trace of host simulation calls. -/
structure BakeResult where
  doc : Doc
  status : String
  reports : List (String × String)
  calls : List SimCall
  deriving DecidableEq

/-- FIREVFX_OT_bake_all.execute (src lines 676-701): requires a resolvable
domain; selection housekeeping failures are swallowed; try bake, on failure
try free-then-bake once, report an error and cancel if that fails too. -/
def bake_all (h : HostSim) (doc : Doc) (s : Settings) : BakeResult :=
  match (find_rig doc s).1 with
  | none =>
    { doc := doc, status := "CANCELLED",
      reports := [("WARNING", "No domain found. Create the rig first.")], calls := [] }
  | some dom =>
    let doc := if h.select_ok then { doc with selected := [dom.id], active := some dom.id }
               else doc
    if h.bake1_ok then
      { doc := doc, status := "FINISHED", reports := [], calls := [SimCall.bake] }
    else if h.free_ok then
      if h.bake2_ok then
        { doc := doc, status := "FINISHED", reports := [],
          calls := [SimCall.bake, SimCall.free, SimCall.bake] }
      else
        { doc := doc, status := "CANCELLED", reports := [("ERROR", "Bake failed")],
          calls := [SimCall.bake, SimCall.free, SimCall.bake] }
    else
      { doc := doc, status := "CANCELLED", reports := [("ERROR", "Bake failed")],
        calls := [SimCall.bake, SimCall.free] }

theorem map_eq_self_of_fixed {α : Type} (f : α → α) :
    ∀ l : List α, (∀ a ∈ l, f a = a) → l.map f = l := by
  intro l
  induction l with
  | nil => intro _; rfl
  | cons a l ih =>
    intro h
    simp only [List.map_cons, List.cons.injEq]
    exact ⟨h a (List.mem_cons_self a l), ih (fun b hb => h b (List.mem_cons_of_mem a hb))⟩

theorem filter_eq_self_of_all {α : Type} (p : α → Bool) :
    ∀ l : List α, (∀ a ∈ l, p a = true) → l.filter p = l := by
  intro l
  induction l with
  | nil => intro _; rfl
  | cons a l ih =>
    intro h
    rw [List.filter_cons, if_pos (h a (List.mem_cons_self a l))]
    rw [ih (fun b hb => h b (List.mem_cons_of_mem a hb))]

theorem find?_append_distrib {α : Type} (p : α → Bool) :
    ∀ l1 l2 : List α, (l1 ++ l2).find? p =
      (match l1.find? p with
       | some a => some a
       | none => l2.find? p) := by
  intro l1 l2
  induction l1 with
  | nil => rfl
  | cons a l ih =>
    cases hp : p a <;> simp [List.find?_cons, hp, ih]

theorem find?_map_pred_stable {α : Type} (f : α → α) (q : α → Bool)
    (h : ∀ a, q (f a) = q a) :
    ∀ l : List α, (l.map f).find? q = (l.find? q).map f := by
  intro l
  induction l with
  | nil => rfl
  | cons a l ih =>
    cases hq : q a <;> simp [List.find?_cons, h a, hq, ih]

theorem find?_none_of_all_not {α : Type} (p : α → Bool) :
    ∀ l : List α, l.find? p = none → ∀ a ∈ l, p a = false := by
  intro l
  induction l with
  | nil => intro _ a ha; exact absurd ha (List.not_mem_nil a)
  | cons b l ih =>
    intro h a ha
    by_cases hp : p b
    · simp [List.find?_cons, hp] at h
    · rcases List.mem_cons.mp ha with rfl | ha2
      · exact eq_false_of_ne_true hp
      · refine ih ?_ a ha2
        simpa [List.find?_cons, hp] using h

theorem find?_some_pred {α : Type} (p : α → Bool) {l : List α} {a : α}
    (h : l.find? p = some a) : p a = true :=
  List.find?_some h

theorem find?_some_mem {α : Type} (p : α → Bool) {l : List α} {a : α}
    (h : l.find? p = some a) : a ∈ l :=
  List.mem_of_find?_eq_some h

theorem countP_eq_one_of_find?_nodup (n : String) :
    ∀ (l : List Obj), (l.map Obj.name).Nodup →
      ∀ o : Obj, l.find? (fun x => x.name == n) = some o →
      l.countP (fun x => x.name == n) = 1 := by
  intro l
  induction l with
  | nil => intro _ o h; exact absurd h (by simp)
  | cons a l ih =>
    intro hnd o h
    simp only [List.map_cons, List.nodup_cons] at hnd
    cases hpa : (a.name == n) with
    | true =>
      have han : a.name = n := by simpa using hpa
      have hz : l.countP (fun x => x.name == n) = 0 := by
        rw [List.countP_eq_zero]
        intro b hb
        have hbn : b.name ≠ n := by
          intro heq
          exact hnd.1 (by rw [han, ← heq]; exact List.mem_map_of_mem Obj.name hb)
        simp [hbn]
      simp [List.countP_cons, hpa, hz]
    | false =>
      simp only [List.find?_cons, hpa] at h
      have := ih hnd.2 o h
      simp [List.countP_cons, hpa, this]

theorem firstIdxBy_none_countP {α : Type} (p : α → Bool) :
    ∀ l : List α, firstIdxBy p l = none → l.countP p = 0 := by
  intro l
  induction l with
  | nil => intro _; rfl
  | cons a l ih =>
    intro h
    cases hpa : p a with
    | true => simp [firstIdxBy, hpa] at h
    | false =>
      simp only [firstIdxBy, hpa, Bool.false_eq_true, if_false,
        Option.map_eq_none'] at h
      simp [List.countP_cons, hpa, ih h]

theorem firstIdxBy_some_countP_pos {α : Type} (p : α → Bool) :
    ∀ (l : List α) (i : Nat), firstIdxBy p l = some i → 0 < l.countP p := by
  intro l
  induction l with
  | nil => intro i h; exact absurd h (by simp [firstIdxBy])
  | cons a l ih =>
    intro i h
    cases hpa : p a with
    | true => simp [List.countP_cons, hpa]
    | false =>
      simp only [firstIdxBy, hpa, Bool.false_eq_true, if_false, Option.map_eq_some'] at h
      obtain ⟨j, hj, -⟩ := h
      have := ih j hj
      simp only [List.countP_cons, hpa, Bool.false_eq_true, if_false]
      omega

theorem firstIdxBy_modifyAt {α : Type} (p : α → Bool) (f : α → α)
    (hf : ∀ a, p (f a) = p a) :
    ∀ (l : List α) (i : Nat), firstIdxBy p (modifyAt l i f) = firstIdxBy p l := by
  intro l
  induction l with
  | nil => intro i; rfl
  | cons a l ih =>
    intro i
    cases i with
    | zero => simp [modifyAt, firstIdxBy, hf a]
    | succ n => simp [modifyAt, firstIdxBy, ih n]

theorem firstIdxBy_append_some {α : Type} (p : α → Bool) :
    ∀ (l : List α) (a : α), firstIdxBy p l = none → p a = true →
      firstIdxBy p (l ++ [a]) = some l.length := by
  intro l
  induction l with
  | nil => intro a _ hp; simp [firstIdxBy, hp]
  | cons b l ih =>
    intro a h hp
    cases hpb : p b with
    | true => simp [firstIdxBy, hpb] at h
    | false =>
      simp only [firstIdxBy, hpb, Bool.false_eq_true, if_false,
        Option.map_eq_none'] at h
      simp [firstIdxBy, hpb, ih a h hp]

theorem modifyAt_get?_self {α : Type} (f : α → α) :
    ∀ (l : List α) (i : Nat), (modifyAt l i f).get? i = (l.get? i).map f := by
  intro l
  induction l with
  | nil => intro i; cases i <;> rfl
  | cons a l ih =>
    intro i
    cases i with
    | zero => rfl
    | succ n => simp only [modifyAt, List.get?_cons_succ]; exact ih n

theorem modifyAt_eq_self {α : Type} (f : α → α) :
    ∀ (l : List α) (i : Nat), (∀ a, l.get? i = some a → f a = a) → modifyAt l i f = l := by
  intro l
  induction l with
  | nil => intro i _; rfl
  | cons a l ih =>
    intro i h
    cases i with
    | zero => simp [modifyAt, h a rfl]
    | succ n => simp [modifyAt, ih n (fun b hb => h b hb)]

theorem modifyAt_append_length {α : Type} (f : α → α) :
    ∀ (l : List α) (a : α), modifyAt (l ++ [a]) l.length f = l ++ [f a] := by
  intro l
  induction l with
  | nil => intro a; rfl
  | cons b l ih => intro a; simp [modifyAt, ih a]

theorem get?_append_length {α : Type} :
    ∀ (l : List α) (a : α), (l ++ [a]).get? l.length = some a := by
  intro l
  induction l with
  | nil => intro a; rfl
  | cons b l ih => intro a; simp [ih a]

/-- Number of fluid-type modifiers on an object. -/
def fluidModifierCount (obj : Obj) : Nat :=
  obj.modifiers.countP (fun m => m.type == "FLUID")

/-- C8: under the host invariant that an object carries at most one
fluid-type modifier, _ensure_fluid_modifier leaves the object with exactly
one fluid modifier: when at least one exists it reuses it and changes
nothing, and when none exists it appends exactly one fresh fluid
modifier. -/
theorem c8_ensure_fluid_modifier_exactly_one (obj : Obj)
    (hinv : fluidModifierCount obj ≤ 1) :
    fluidModifierCount (ensure_fluid_modifier obj).1 = 1 ∧
    (1 ≤ fluidModifierCount obj → (ensure_fluid_modifier obj).1 = obj) ∧
    (fluidModifierCount obj = 0 →
      (ensure_fluid_modifier obj).1.modifiers = obj.modifiers ++ [defaultFluidModifier]) := by
  unfold ensure_fluid_modifier
  cases hf : firstIdxBy (fun m => m.type == "FLUID") obj.modifiers with
  | some i =>
    have h1 : 0 < fluidModifierCount obj := firstIdxBy_some_countP_pos _ _ i hf
    refine ⟨?_, fun _ => rfl, fun h0 => absurd h0 (by omega)⟩
    show fluidModifierCount obj = 1
    omega
  | none =>
    have h0 : obj.modifiers.countP (fun m => m.type == "FLUID") = 0 :=
      firstIdxBy_none_countP _ _ hf
    refine ⟨?_, fun h1 => absurd h1 (by unfold fluidModifierCount; omega), fun _ => rfl⟩
    show ({ obj with modifiers := obj.modifiers ++ [defaultFluidModifier] } :
      Obj).modifiers.countP (fun m => m.type == "FLUID") = 1
    simp [List.countP_append, h0, List.countP_cons, defaultFluidModifier]

/-- A plain mesh object with no modifiers and no material slots. -/
def bareObj (i : Nat) (nm : String) : Obj where
  id := i
  name := nm
  location := (0.0, 0.0, 0.0)
  scale := (1.0, 1.0, 1.0)
  applied_scale := (1.0, 1.0, 1.0)
  display_type := "SOLID"
  mesh_kind := "CUBE"
  modifiers := []
  material_slots := []

/-- Witness for C8 at a concrete modifier-free object. -/
theorem c8_ensure_fluid_modifier_exactly_one_witness :
    fluidModifierCount (ensure_fluid_modifier (bareObj 0 "Thing")).1 = 1 ∧
    (1 ≤ fluidModifierCount (bareObj 0 "Thing") →
      (ensure_fluid_modifier (bareObj 0 "Thing")).1 = bareObj 0 "Thing") ∧
    (fluidModifierCount (bareObj 0 "Thing") = 0 →
      (ensure_fluid_modifier (bareObj 0 "Thing")).1.modifiers =
        (bareObj 0 "Thing").modifiers ++ [defaultFluidModifier]) :=
  c8_ensure_fluid_modifier_exactly_one (bareObj 0 "Thing") (by decide)

/-- The empty host document. -/
def emptyDoc : Doc where
  objects := []
  collections := []
  scene_children := []
  root_members := []
  materials := []
  next_id := 0
  active := none
  selected := []

/-- C4: when either stored rig name fails to resolve, update_rig reports a
warning, returns CANCELLED, and mutates nothing: the document and the
settings record are returned unchanged. -/
theorem c4_update_rig_unresolved_warns_and_mutates_nothing (doc : Doc) (s : Settings)
    (h : (find_rig doc s).1 = none ∨ (find_rig doc s).2 = none) :
    update_rig doc s = (doc, s, "CANCELLED",
      [("WARNING", "No rig found. Click Create Fire Rig first.")]) := by
  unfold update_rig
  rcases hfr : find_rig doc s with ⟨d, e⟩
  rw [hfr] at h
  rcases h with h | h
  · simp only at h
    subst h
    cases e <;> rfl
  · simp only at h
    subst h
    cases d <;> rfl

/-- Witness for C4 at the empty document and default settings (whose stored
names are empty and resolve to nothing). -/
theorem c4_update_rig_unresolved_warns_and_mutates_nothing_witness :
    update_rig emptyDoc defaultSettings = (emptyDoc, defaultSettings, "CANCELLED",
      [("WARNING", "No rig found. Click Create Fire Rig first.")]) :=
  c4_update_rig_unresolved_warns_and_mutates_nothing emptyDoc defaultSettings (Or.inl rfl)

/-- C9: bake_all with no resolvable domain warns, cancels, and issues no
host simulation call; with a resolvable domain it issues the bake call, on
bake failure exactly one free-then-bake retry (free failure aborts the
retry before the second bake), reports an error and cancels when the retry
fails, and never issues more than two bake calls. -/
theorem c9_bake_all_retry_policy (h : HostSim) (doc : Doc) (s : Settings) :
    ((find_rig doc s).1 = none →
      bake_all h doc s =
        { doc := doc, status := "CANCELLED",
          reports := [("WARNING", "No domain found. Create the rig first.")], calls := [] }) ∧
    (∀ dom : Obj, (find_rig doc s).1 = some dom →
      (bake_all h doc s).calls =
        (if h.bake1_ok then [SimCall.bake]
         else if h.free_ok then [SimCall.bake, SimCall.free, SimCall.bake]
         else [SimCall.bake, SimCall.free]) ∧
      (bake_all h doc s).status =
        (if h.bake1_ok ∨ (h.free_ok ∧ h.bake2_ok) then "FINISHED" else "CANCELLED") ∧
      (bake_all h doc s).reports =
        (if h.bake1_ok ∨ (h.free_ok ∧ h.bake2_ok) then [] else [("ERROR", "Bake failed")]) ∧
      (bake_all h doc s).calls.count SimCall.bake ≤ 2) := by
  obtain ⟨b1, fo, b2, so⟩ := h
  constructor
  · intro hnone
    unfold bake_all
    rw [hnone]
  · intro dom hsome
    unfold bake_all
    rw [hsome]
    cases b1 <;> cases fo <;> cases b2 <;>
      simp [List.count_cons, List.count_nil]

/-- A document holding just a domain object under the fixed name. -/
def bakeDoc : Doc := { emptyDoc with objects := [bareObj 0 "FireVFX_Domain"] }

/-- Settings whose stored rig names are the fixed object names. -/
def bakeSettings : Settings :=
  { defaultSettings with domain_object_name := "FireVFX_Domain",
                         emitter_object_name := "FireVFX_Emitter" }

/-- Witness for C9: no-domain case at the empty document, and the
failing-retry case (bake fails, free succeeds, second bake fails) at a
document with a resolvable domain. -/
theorem c9_bake_all_retry_policy_witness :
    (bake_all ⟨false, true, false, true⟩ emptyDoc defaultSettings =
      { doc := emptyDoc, status := "CANCELLED",
        reports := [("WARNING", "No domain found. Create the rig first.")], calls := [] }) ∧
    ((bake_all ⟨false, true, false, true⟩ bakeDoc bakeSettings).calls =
        [SimCall.bake, SimCall.free, SimCall.bake] ∧
     (bake_all ⟨false, true, false, true⟩ bakeDoc bakeSettings).status = "CANCELLED" ∧
     (bake_all ⟨false, true, false, true⟩ bakeDoc bakeSettings).reports =
        [("ERROR", "Bake failed")] ∧
     (bake_all ⟨false, true, false, true⟩ bakeDoc bakeSettings).calls.count SimCall.bake ≤ 2) :=
  ⟨(c9_bake_all_retry_policy ⟨false, true, false, true⟩ emptyDoc defaultSettings).1 rfl,
   (c9_bake_all_retry_policy ⟨false, true, false, true⟩ bakeDoc bakeSettings).2
     (bareObj 0 "FireVFX_Domain") rfl⟩

theorem firstIdxBy_get {α : Type} (p : α → Bool) :
    ∀ (l : List α) (i : Nat), firstIdxBy p l = some i →
      ∃ a, l.get? i = some a ∧ p a = true := by
  intro l
  induction l with
  | nil => intro i h; exact absurd h (by simp [firstIdxBy])
  | cons a l ih =>
    intro i h
    cases hpa : p a with
    | true =>
      simp only [firstIdxBy, hpa, if_true] at h
      exact ⟨a, by rw [← Option.some.inj h]; rfl, hpa⟩
    | false =>
      simp only [firstIdxBy, hpa, Bool.false_eq_true, if_false, Option.map_eq_some'] at h
      obtain ⟨j, hj, hji⟩ := h
      obtain ⟨x, hx, hpx⟩ := ih j hj
      exact ⟨x, by rw [← hji]; simpa using hx, hpx⟩

theorem build_volume_shader_idem (m : Material) (a b : ℚ) (r : List RampElem) :
    build_volume_shader (build_volume_shader m a b r) a b r =
      build_volume_shader m a b r := rfl

theorem material_use_nodes_eta (x : Material) (h : x.use_nodes = true) :
    ({ x with use_nodes := true } : Material) = x := by
  cases x
  simp_all

/-- The material-list transformation performed by _ensure_domain_material:
get or create the shared material, then rebuild its volume shader. -/
def rebuildMaterials (mats : List Material) (s : Settings) : List Material :=
  modifyAt (get_or_create_material mats MATERIAL_NAME).1
    (get_or_create_material mats MATERIAL_NAME).2
    (fun m => build_volume_shader m s.flame_strength s.smoke_density (flameRamp s))

/-- get_or_create_material when the material already exists. -/
theorem gocm_of_firstIdxBy_some (mats : List Material) (i : Nat)
    (h : firstIdxBy (fun m => m.name == MATERIAL_NAME) mats = some i) :
    get_or_create_material mats MATERIAL_NAME =
      (modifyAt mats i (fun m => { m with use_nodes := true }), i) := by
  unfold get_or_create_material
  rw [h]

/-- After one get-or-create-and-rebuild pass, the shared material is found
at the recorded index and absorbs both the use_nodes write and a repeated
rebuild. -/
theorem rebuildMaterials_state (mats : List Material) (s : Settings) :
    firstIdxBy (fun m => m.name == MATERIAL_NAME) (rebuildMaterials mats s) =
      some (get_or_create_material mats MATERIAL_NAME).2 ∧
    ∃ x, (rebuildMaterials mats s).get?
        (get_or_create_material mats MATERIAL_NAME).2 = some x ∧
      ({ x with use_nodes := true } : Material) = x ∧
      build_volume_shader x s.flame_strength s.smoke_density (flameRamp s) = x := by
  unfold rebuildMaterials
  cases hg : firstIdxBy (fun m => m.name == MATERIAL_NAME) mats with
  | some i =>
    rw [gocm_of_firstIdxBy_some mats i hg]
    dsimp only
    constructor
    · rw [firstIdxBy_modifyAt (fun m => m.name == MATERIAL_NAME)
            (fun m => build_volume_shader m s.flame_strength s.smoke_density (flameRamp s))
            (fun m => rfl),
          firstIdxBy_modifyAt (fun m => m.name == MATERIAL_NAME)
            (fun m : Material => { m with use_nodes := true })
            (fun m => rfl), hg]
    · obtain ⟨a, ha, hpa⟩ := firstIdxBy_get _ mats i hg
      refine ⟨build_volume_shader { a with use_nodes := true }
        s.flame_strength s.smoke_density (flameRamp s), ?_, ?_, ?_⟩
      · rw [modifyAt_get?_self, modifyAt_get?_self, ha]
        rfl
      · exact material_use_nodes_eta _ rfl
      · exact build_volume_shader_idem _ _ _ _
  | none =>
    unfold get_or_create_material
    rw [hg]
    dsimp only
    constructor
    · rw [modifyAt_append_length]
      refine firstIdxBy_append_some _ mats _ hg ?_
      simp [build_volume_shader]
    · refine ⟨build_volume_shader
        { name := MATERIAL_NAME, use_nodes := true, nodes := [], links := [] }
        s.flame_strength s.smoke_density (flameRamp s), ?_, ?_, ?_⟩
      · rw [modifyAt_append_length, get?_append_length]
      · exact material_use_nodes_eta _ rfl
      · exact build_volume_shader_idem _ _ _ _

/-- Rebuilding over a material list whose shared material already absorbs
the use_nodes write and the rebuild is a no-op. -/
theorem rebuildMaterials_stable (mats : List Material) (s : Settings) (i : Nat)
    (hfirst : firstIdxBy (fun m => m.name == MATERIAL_NAME) mats = some i)
    (x : Material) (hx : mats.get? i = some x)
    (hux : ({ x with use_nodes := true } : Material) = x)
    (hbx : build_volume_shader x s.flame_strength s.smoke_density (flameRamp s) = x) :
    rebuildMaterials mats s = mats := by
  unfold rebuildMaterials
  rw [gocm_of_firstIdxBy_some _ _ hfirst]
  dsimp only
  have hinner : modifyAt mats i (fun m : Material => { m with use_nodes := true }) = mats :=
    modifyAt_eq_self _ _ _ (fun a ha => by
      have hax : x = a := Option.some.inj (hx ▸ ha)
      rw [← hax]; exact hux)
  rw [hinner]
  exact modifyAt_eq_self _ _ _ (fun a ha => by
    have hax : x = a := Option.some.inj (hx ▸ ha)
    rw [← hax]; exact hbx)

theorem ensure_domain_material_none (doc : Doc) (s : Settings) (domId : Nat)
    (h : findById doc domId = none) :
    ensure_domain_material doc s domId = doc := by
  unfold ensure_domain_material
  rw [h]

theorem ensure_domain_material_some (doc : Doc) (s : Settings) (domId : Nat) (o : Obj)
    (h : findById doc domId = some o) :
    ensure_domain_material doc s domId =
      updateObj { doc with materials := rebuildMaterials doc.materials s }
        domId assignFirstSlot := by
  unfold ensure_domain_material rebuildMaterials
  rw [h]

theorem assignFirstSlot_id (o : Obj) : (assignFirstSlot o).id = o.id := by
  unfold assignFirstSlot
  split <;> rfl

theorem assignFirstSlot_name (o : Obj) : (assignFirstSlot o).name = o.name := by
  unfold assignFirstSlot
  split <;> rfl

theorem assignFirstSlot_idem (o : Obj) :
    assignFirstSlot (assignFirstSlot o) = assignFirstSlot o := by
  rcases ho : o.material_slots with - | ⟨a, l⟩ <;>
    simp [assignFirstSlot, ho, List.set]

theorem findById_updateObj (doc : Doc) (j : Nat) (f : Obj → Obj)
    (hid : ∀ o, (f o).id = o.id) (i : Nat) :
    findById (updateObj doc j f) i =
      (findById doc i).map (fun o => if o.id == j then f o else o) := by
  unfold findById updateObj
  refine find?_map_pred_stable _ _ (fun o => ?_) doc.objects
  by_cases hc : o.id = j
  · simp [hc, hid o]
  · simp [hc]

theorem updateObj_idem (doc : Doc) (i : Nat) (f : Obj → Obj)
    (hff : ∀ o, f (f o) = f o) (hid : ∀ o, (f o).id = o.id) :
    updateObj (updateObj doc i f) i f = updateObj doc i f := by
  unfold updateObj
  have hcomp : ((fun o => if o.id == i then f o else o) ∘
      (fun o => if o.id == i then f o else o)) =
      (fun o => if o.id == i then f o else o) := by
    funext o
    by_cases hci : o.id = i
    · simp [hci, hid o, hff o]
    · simp [hci]
  simp only [List.map_map, hcomp]

/-- _ensure_domain_material is idempotent on the whole document. -/
theorem ensure_domain_material_idem (doc : Doc) (s : Settings) (domId : Nat) :
    ensure_domain_material (ensure_domain_material doc s domId) s domId =
      ensure_domain_material doc s domId := by
  cases hfd : findById doc domId with
  | none =>
    rw [ensure_domain_material_none doc s domId hfd,
        ensure_domain_material_none doc s domId hfd]
  | some o =>
    obtain ⟨hfirst, x, hx, hux, hbx⟩ := rebuildMaterials_state doc.materials s
    rw [ensure_domain_material_some doc s domId o hfd]
    have hfd1 : findById
        (updateObj { doc with materials := rebuildMaterials doc.materials s }
          domId assignFirstSlot) domId =
        some (if o.id == domId then assignFirstSlot o else o) := by
      rw [findById_updateObj _ _ _ assignFirstSlot_id]
      have hsame : findById { doc with materials := rebuildMaterials doc.materials s }
          domId = findById doc domId := rfl
      rw [hsame, hfd]
      rfl
    rw [ensure_domain_material_some _ s domId _ hfd1]
    have hmats : (updateObj { doc with materials := rebuildMaterials doc.materials s }
        domId assignFirstSlot).materials = rebuildMaterials doc.materials s := rfl
    rw [hmats]
    rw [rebuildMaterials_stable (rebuildMaterials doc.materials s) s
          (get_or_create_material doc.materials MATERIAL_NAME).2 hfirst x hx hux hbx]
    exact updateObj_idem _ domId assignFirstSlot assignFirstSlot_idem assignFirstSlot_id

/-- C6: rebuilding the shader graph twice with the same settings is
idempotent: _build_volume_shader applied twice yields the same material as
applied once, and running _ensure_domain_material a second time with
unchanged settings leaves the document — in particular every material's
node count, link count, and node parameters — exactly as after the first
run. -/
theorem c6_shader_rebuild_idempotent (doc : Doc) (s : Settings) (domId : Nat) :
    (∀ (m : Material) (a b : ℚ) (r : List RampElem),
      build_volume_shader (build_volume_shader m a b r) a b r =
        build_volume_shader m a b r) ∧
    ensure_domain_material (ensure_domain_material doc s domId) s domId =
      ensure_domain_material doc s domId ∧
    (ensure_domain_material (ensure_domain_material doc s domId) s domId).materials.map
        (fun m => (m.nodes.length, m.links.length)) =
      (ensure_domain_material doc s domId).materials.map
        (fun m => (m.nodes.length, m.links.length)) ∧
    (ensure_domain_material (ensure_domain_material doc s domId) s domId).materials =
      (ensure_domain_material doc s domId).materials := by
  have h := ensure_domain_material_idem doc s domId
  exact ⟨fun m a b r => build_volume_shader_idem m a b r, h, by rw [h], by rw [h]⟩

/-- The identity-relevant projection of the object list: ids and names in
document order. -/
def objKeys (doc : Doc) : List (Nat × String) :=
  doc.objects.map (fun o => (o.id, o.name))

theorem find?_proj {α β : Type} (proj : α → β) (q : β → Bool) :
    ∀ l1 l2 : List α, l1.map proj = l2.map proj →
      (l1.find? (fun a => q (proj a))).map proj =
        (l2.find? (fun a => q (proj a))).map proj := by
  intro l1
  induction l1 with
  | nil =>
    intro l2 h
    cases l2 with
    | nil => rfl
    | cons b l => simp at h
  | cons a l1 ih =>
    intro l2 h
    cases l2 with
    | nil => simp at h
    | cons b l2 =>
      simp only [List.map_cons, List.cons.injEq] at h
      cases hq : q (proj a) with
      | true =>
        have hqb : q (proj b) = true := by rw [← h.1]; exact hq
        simp only [List.find?_cons, hq, hqb, Option.map_some']
        exact congrArg some h.1
      | false =>
        have hqb : q (proj b) = false := by rw [← h.1]; exact hq
        simp only [List.find?_cons, hq, hqb]
        exact ih l2 h.2

theorem find?_eq_of_nodup_key {α κ : Type} [BEq κ] [LawfulBEq κ] (key : α → κ) :
    ∀ l : List α, (l.map key).Nodup → ∀ a ∈ l,
      l.find? (fun x => key x == key a) = some a := by
  intro l
  induction l with
  | nil => intro _ a ha; exact absurd ha (List.not_mem_nil a)
  | cons b l ih =>
    intro hnd a ha
    simp only [List.map_cons, List.nodup_cons] at hnd
    rcases List.mem_cons.mp ha with rfl | ha2
    · simp [List.find?_cons]
    · have hne : key b ≠ key a := by
        intro heq
        exact hnd.1 (heq ▸ List.mem_map_of_mem key ha2)
      have : (key b == key a) = false := by simpa using hne
      simp only [List.find?_cons, this]
      exact ih hnd.2 a ha2

theorem updateObj_collections (doc : Doc) (i : Nat) (f : Obj → Obj) :
    (updateObj doc i f).collections = doc.collections := rfl

theorem updateObj_root (doc : Doc) (i : Nat) (f : Obj → Obj) :
    (updateObj doc i f).root_members = doc.root_members := rfl

theorem objKeys_updateObj (doc : Doc) (j : Nat) (g : Obj → Obj)
    (hid : ∀ o, (g o).id = o.id) (hname : ∀ o, (g o).name = o.name) :
    objKeys (updateObj doc j g) = objKeys doc := by
  unfold objKeys updateObj
  rw [List.map_map]
  congr 1
  funext o
  by_cases hc : o.id = j <;> simp [hc, hid o, hname o]

theorem objKeys_transformApply (doc : Doc) :
    objKeys (transformApplyScaleSelected doc) = objKeys doc := by
  unfold objKeys transformApplyScaleSelected
  rw [List.map_map]
  congr 1
  funext o
  by_cases hc : o.id ∈ doc.selected <;> simp [hc]

theorem transformApply_collections (doc : Doc) :
    (transformApplyScaleSelected doc).collections = doc.collections := rfl

theorem transformApply_root (doc : Doc) :
    (transformApplyScaleSelected doc).root_members = doc.root_members := rfl

theorem objKeys_selectAndActivate (doc : Doc) (i : Nat) :
    objKeys (selectAndActivate doc i) = objKeys doc := rfl

theorem selectAndActivate_collections (doc : Doc) (i : Nat) :
    (selectAndActivate doc i).collections = doc.collections := rfl

theorem selectAndActivate_root (doc : Doc) (i : Nat) :
    (selectAndActivate doc i).root_members = doc.root_members := rfl

theorem objKeys_applyScaleBlock (doc : Doc) (d e : Nat) :
    objKeys (applyScaleBlock doc d e) = objKeys doc := by
  unfold applyScaleBlock
  rw [objKeys_transformApply, objKeys_selectAndActivate,
    objKeys_transformApply, objKeys_selectAndActivate]

theorem applyScaleBlock_collections (doc : Doc) (d e : Nat) :
    (applyScaleBlock doc d e).collections = doc.collections := rfl

theorem applyScaleBlock_root (doc : Doc) (d e : Nat) :
    (applyScaleBlock doc d e).root_members = doc.root_members := rfl

theorem apply_domain_settings_id (o : Obj) (s : Settings) :
    (apply_domain_settings o s).id = o.id := by
  unfold apply_domain_settings ensure_fluid_modifier
  cases firstIdxBy (fun m => m.type == "FLUID") o.modifiers <;> rfl

theorem apply_domain_settings_name (o : Obj) (s : Settings) :
    (apply_domain_settings o s).name = o.name := by
  unfold apply_domain_settings ensure_fluid_modifier
  cases firstIdxBy (fun m => m.type == "FLUID") o.modifiers <;> rfl

theorem apply_flow_settings_id (o : Obj) (s : Settings) :
    (apply_flow_settings o s).id = o.id := by
  unfold apply_flow_settings ensure_fluid_modifier
  cases firstIdxBy (fun m => m.type == "FLUID") o.modifiers <;> rfl

theorem apply_flow_settings_name (o : Obj) (s : Settings) :
    (apply_flow_settings o s).name = o.name := by
  unfold apply_flow_settings ensure_fluid_modifier
  cases firstIdxBy (fun m => m.type == "FLUID") o.modifiers <;> rfl

theorem objKeys_ensure_domain_material (doc : Doc) (s : Settings) (dm : Nat) :
    objKeys (ensure_domain_material doc s dm) = objKeys doc := by
  cases hfd : findById doc dm with
  | none => rw [ensure_domain_material_none _ _ _ hfd]
  | some o =>
    rw [ensure_domain_material_some _ _ _ _ hfd,
      objKeys_updateObj _ _ _ assignFirstSlot_id assignFirstSlot_name]
    rfl

theorem ensure_domain_material_collections (doc : Doc) (s : Settings) (dm : Nat) :
    (ensure_domain_material doc s dm).collections = doc.collections := by
  cases hfd : findById doc dm with
  | none => rw [ensure_domain_material_none _ _ _ hfd]
  | some o => rw [ensure_domain_material_some _ _ _ _ hfd]; rfl

theorem ensure_domain_material_root (doc : Doc) (s : Settings) (dm : Nat) :
    (ensure_domain_material doc s dm).root_members = doc.root_members := by
  cases hfd : findById doc dm with
  | none => rw [ensure_domain_material_none _ _ _ hfd]
  | some o => rw [ensure_domain_material_some _ _ _ _ hfd]; rfl

theorem objKeys_setObjScale (doc : Doc) (i : Nat) (v : V3) :
    objKeys (setObjScale doc i v) = objKeys doc :=
  objKeys_updateObj doc i _ (fun _ => rfl) (fun _ => rfl)

theorem objKeys_updateObj_display (doc : Doc) (i : Nat) (t : String) :
    objKeys (updateObj doc i (fun o => { o with display_type := t })) = objKeys doc :=
  objKeys_updateObj doc i _ (fun _ => rfl) (fun _ => rfl)

theorem objKeys_updateObj_domain (doc : Doc) (i : Nat) (s : Settings) :
    objKeys (updateObj doc i (fun o => apply_domain_settings o s)) = objKeys doc :=
  objKeys_updateObj doc i _ (fun o => apply_domain_settings_id o s)
    (fun o => apply_domain_settings_name o s)

theorem objKeys_updateObj_flow (doc : Doc) (i : Nat) (s : Settings) :
    objKeys (updateObj doc i (fun o => apply_flow_settings o s)) = objKeys doc :=
  objKeys_updateObj doc i _ (fun o => apply_flow_settings_id o s)
    (fun o => apply_flow_settings_name o s)

theorem objKeys_update_tail (doc : Doc) (s : Settings) (d e : Nat) :
    objKeys (update_rig_from_apply_sizes doc s d e) = objKeys doc := by
  unfold update_rig_from_apply_sizes
  split <;>
    rw [objKeys_ensure_domain_material, objKeys_updateObj_flow, objKeys_updateObj_domain]
  · rw [objKeys_applyScaleBlock, objKeys_setObjScale, objKeys_setObjScale]
  · rw [objKeys_setObjScale, objKeys_setObjScale]

theorem update_tail_collections (doc : Doc) (s : Settings) (d e : Nat) :
    (update_rig_from_apply_sizes doc s d e).collections = doc.collections := by
  unfold update_rig_from_apply_sizes
  split <;> rw [ensure_domain_material_collections] <;> rfl

theorem update_tail_root (doc : Doc) (s : Settings) (d e : Nat) :
    (update_rig_from_apply_sizes doc s d e).root_members = doc.root_members := by
  unfold update_rig_from_apply_sizes
  split <;> rw [ensure_domain_material_root] <;> rfl

theorem objKeys_create_tail (doc : Doc) (s : Settings) (d e : Nat) :
    objKeys (create_rig_from_apply_sizes doc s d e).1 = objKeys doc := by
  have h1 : objKeys (create_rig_from_apply_sizes doc s d e).1 =
      objKeys (update_rig_from_apply_sizes doc s d e) := by
    show objKeys (updateObj (updateObj (update_rig_from_apply_sizes doc s d e) d
      (fun o => { o with display_type := "WIRE" })) e
      (fun o => { o with display_type := "SOLID" })) =
      objKeys (update_rig_from_apply_sizes doc s d e)
    rw [objKeys_updateObj_display, objKeys_updateObj_display]
  rw [h1, objKeys_update_tail]

theorem create_tail_collections (doc : Doc) (s : Settings) (d e : Nat) :
    (create_rig_from_apply_sizes doc s d e).1.collections = doc.collections := by
  have h1 : (create_rig_from_apply_sizes doc s d e).1.collections =
      (update_rig_from_apply_sizes doc s d e).collections := rfl
  rw [h1, update_tail_collections]

theorem create_tail_root (doc : Doc) (s : Settings) (d e : Nat) :
    (create_rig_from_apply_sizes doc s d e).1.root_members = doc.root_members := by
  have h1 : (create_rig_from_apply_sizes doc s d e).1.root_members =
      (update_rig_from_apply_sizes doc s d e).root_members := rfl
  rw [h1, update_tail_root]

theorem nameOfId_eq_of_objKeys (doc1 doc2 : Doc) (h : objKeys doc1 = objKeys doc2)
    (i : Nat) : (findById doc1 i).map Obj.name = (findById doc2 i).map Obj.name := by
  have hp := find?_proj (fun o : Obj => (o.id, o.name)) (fun p => p.1 == i)
    doc1.objects doc2.objects h
  have e1 : doc1.objects.find? (fun a => (a.id, a.name).1 == i) = findById doc1 i := rfl
  have e2 : doc2.objects.find? (fun a => (a.id, a.name).1 == i) = findById doc2 i := rfl
  rw [e1, e2] at hp
  calc (findById doc1 i).map Obj.name
      = ((findById doc1 i).map (fun o => (o.id, o.name))).map (fun p => p.2) := by
        cases findById doc1 i <;> rfl
    _ = ((findById doc2 i).map (fun o => (o.id, o.name))).map (fun p => p.2) := by rw [hp]
    _ = (findById doc2 i).map Obj.name := by cases findById doc2 i <;> rfl

theorem option_elim_name_of_map (o? : Option Obj) (v : String)
    (h : o?.map Obj.name = some v) : o?.elim "" Obj.name = v := by
  cases o? with
  | none => exact absurd h (by simp)
  | some a => exact Option.some.inj h

/-- A document holding a domain and an emitter object under the fixed
names, both with display_type "SOLID". -/
def rigPairDoc : Doc :=
  { emptyDoc with
    objects := [bareObj 0 "FireVFX_Domain", bareObj 1 "FireVFX_Emitter"], next_id := 2 }

/-- C5 counterexample: with both rig objects resolving by their stored
names, create_rig's tail from "apply sizes" onward sets the domain's
display_type to "WIRE" (and the emitter's to "SOLID"), while update_rig
leaves display_type untouched, so the final documents are NOT identical:
the claim as stated fails at this input. -/
theorem c5_counterexample_display_hint_divergence :
    find_rig rigPairDoc bakeSettings =
      (some (bareObj 0 "FireVFX_Domain"), some (bareObj 1 "FireVFX_Emitter")) ∧
    (create_rig_from_apply_sizes rigPairDoc bakeSettings 0 1).1.objects.map
      Obj.display_type = ["WIRE", "SOLID"] ∧
    (update_rig rigPairDoc bakeSettings).1.objects.map Obj.display_type =
      ["SOLID", "SOLID"] ∧
    (create_rig_from_apply_sizes rigPairDoc bakeSettings 0 1).1 ≠
      (update_rig rigPairDoc bakeSettings).1 := by
  have hc : (create_rig_from_apply_sizes rigPairDoc bakeSettings 0 1).1.objects.map
      Obj.display_type = ["WIRE", "SOLID"] := by rfl
  have hu : (update_rig rigPairDoc bakeSettings).1.objects.map Obj.display_type =
      ["SOLID", "SOLID"] := by rfl
  refine ⟨rfl, hc, hu, fun hco => ?_⟩
  have hmap : (create_rig_from_apply_sizes rigPairDoc bakeSettings 0 1).1.objects.map
      Obj.display_type = (update_rig rigPairDoc bakeSettings).1.objects.map
      Obj.display_type := by rw [hco]
  rw [hc, hu] at hmap
  exact absurd hmap (by decide)

/-- C5 (amended): whenever both rig objects resolve by their stored names
(in a document with unique object ids), update_rig finishes without
touching the settings record and performs exactly create_rig's
apply-sizes-onward pipeline minus its last two steps: create_rig's tail
leaves the settings record unchanged too (the stored names are re-stored
with their current values), and its final document is update_rig's final
document with only the two display-hint writes (domain "WIRE", emitter
"SOLID") applied on top. -/
theorem c5_amended_update_tail_equals_create_tail_modulo_display_hints
    (doc : Doc) (s : Settings) (o1 o2 : Obj)
    (hids : (doc.objects.map Obj.id).Nodup)
    (h : find_rig doc s = (some o1, some o2)) :
    (update_rig doc s).2.2.1 = "FINISHED" ∧
    (update_rig doc s).2.1 = s ∧
    (update_rig doc s).1 = update_rig_from_apply_sizes doc s o1.id o2.id ∧
    (create_rig_from_apply_sizes doc s o1.id o2.id).2 = s ∧
    (create_rig_from_apply_sizes doc s o1.id o2.id).1 =
      updateObj (updateObj (update_rig_from_apply_sizes doc s o1.id o2.id) o1.id
        (fun o => { o with display_type := "WIRE" })) o2.id
        (fun o => { o with display_type := "SOLID" }) := by
  have hur : update_rig doc s =
      (update_rig_from_apply_sizes doc s o1.id o2.id, s, "FINISHED", []) := by
    unfold update_rig
    rw [h]
  have h1 : (if s.domain_object_name ≠ "" then dataObjectsGet doc s.domain_object_name
      else none) = some o1 := congrArg Prod.fst h
  have h2 : (if s.emitter_object_name ≠ "" then dataObjectsGet doc s.emitter_object_name
      else none) = some o2 := congrArg Prod.snd h
  have hg1 : dataObjectsGet doc s.domain_object_name = some o1 := by
    by_cases hne : s.domain_object_name ≠ ""
    · rw [if_pos hne] at h1; exact h1
    · rw [if_neg hne] at h1; exact absurd h1 (by simp)
  have hg2 : dataObjectsGet doc s.emitter_object_name = some o2 := by
    by_cases hne : s.emitter_object_name ≠ ""
    · rw [if_pos hne] at h2; exact h2
    · rw [if_neg hne] at h2; exact absurd h2 (by simp)
  have hn1 : o1.name = s.domain_object_name := by
    have := find?_some_pred _ hg1
    simpa using this
  have hn2 : o2.name = s.emitter_object_name := by
    have := find?_some_pred _ hg2
    simpa using this
  have hfid1 : findById doc o1.id = some o1 :=
    find?_eq_of_nodup_key Obj.id doc.objects hids o1 (find?_some_mem _ hg1)
  have hfid2 : findById doc o2.id = some o2 :=
    find?_eq_of_nodup_key Obj.id doc.objects hids o2 (find?_some_mem _ hg2)
  have hm1 : (findById (update_rig_from_apply_sizes doc s o1.id o2.id) o1.id).map
      Obj.name = some s.domain_object_name := by
    rw [nameOfId_eq_of_objKeys _ doc (objKeys_update_tail doc s o1.id o2.id) o1.id,
      hfid1]
    rw [Option.map_some', hn1]
  have hm2 : (findById (update_rig_from_apply_sizes doc s o1.id o2.id) o2.id).map
      Obj.name = some s.emitter_object_name := by
    rw [nameOfId_eq_of_objKeys _ doc (objKeys_update_tail doc s o1.id o2.id) o2.id,
      hfid2]
    rw [Option.map_some', hn2]
  refine ⟨by rw [hur], by rw [hur], by rw [hur], ?_, rfl⟩
  show ({ s with
    domain_object_name :=
      (findById (update_rig_from_apply_sizes doc s o1.id o2.id) o1.id).elim "" Obj.name,
    emitter_object_name :=
      (findById (update_rig_from_apply_sizes doc s o1.id o2.id) o2.id).elim "" Obj.name }
    : Settings) = s
  rw [option_elim_name_of_map _ _ hm1, option_elim_name_of_map _ _ hm2]

/-- Witness for C5's amended theorem at a concrete two-object rig
document. -/
theorem c5_amended_update_tail_equals_create_tail_modulo_display_hints_witness :
    (update_rig rigPairDoc bakeSettings).2.2.1 = "FINISHED" ∧
    (update_rig rigPairDoc bakeSettings).2.1 = bakeSettings ∧
    (update_rig rigPairDoc bakeSettings).1 =
      update_rig_from_apply_sizes rigPairDoc bakeSettings 0 1 ∧
    (create_rig_from_apply_sizes rigPairDoc bakeSettings 0 1).2 = bakeSettings ∧
    (create_rig_from_apply_sizes rigPairDoc bakeSettings 0 1).1 =
      updateObj (updateObj (update_rig_from_apply_sizes rigPairDoc bakeSettings 0 1) 0
        (fun o => { o with display_type := "WIRE" })) 1
        (fun o => { o with display_type := "SOLID" }) :=
  c5_amended_update_tail_equals_create_tail_modulo_display_hints rigPairDoc bakeSettings
    (bareObj 0 "FireVFX_Domain") (bareObj 1 "FireVFX_Emitter") (by decide) rfl

/-- Members of the named collection, when it exists. -/
def colMembersOpt (doc : Doc) (n : String) : Option (List Nat) :=
  (doc.collections.find? (fun c => c.name == n)).map Collection.members

/-- Id of the object found under a datablock name. -/
def idOfName (doc : Doc) (n : String) : Option Nat :=
  (dataObjectsGet doc n).map Obj.id

/-- Host well-formedness of a document: object ids and names unique,
collection names unique, and every object id below the id counter. -/
def WFDoc (doc : Doc) : Prop :=
  (doc.objects.map Obj.id).Nodup ∧
  (doc.objects.map Obj.name).Nodup ∧
  (doc.collections.map Collection.name).Nodup ∧
  ∀ o ∈ doc.objects, o.id < doc.next_id

/-- The state create_rig leaves behind, as far as the second run reads it:
the two rig objects resolve under the fixed names to distinct ids d and e,
names are unique, the grouping collection ends in exactly [d, e], and no
other collection (nor the scene root) contains d or e. -/
def RigState (doc : Doc) (d e : Nat) : Prop :=
  d ≠ e ∧
  idOfName doc DOMAIN_NAME = some d ∧
  idOfName doc EMITTER_NAME = some e ∧
  (doc.objects.map Obj.name).Nodup ∧
  (doc.collections.map Collection.name).Nodup ∧
  (∃ pre, colMembersOpt doc COLLECTION_NAME = some (pre ++ [d, e]) ∧
    d ∉ pre ∧ e ∉ pre) ∧
  (∀ c ∈ doc.collections, c.name ≠ COLLECTION_NAME →
    d ∉ c.members ∧ e ∉ c.members) ∧
  d ∉ doc.root_members ∧ e ∉ doc.root_members

theorem not_mem_filter_ne (i : Nat) (l : List Nat) :
    i ∉ l.filter (fun m => m != i) := by
  simp [List.mem_filter]

theorem not_mem_filter_of_not_mem (i : Nat) (p : Nat → Bool) (l : List Nat)
    (h : i ∉ l) : i ∉ l.filter p := by
  intro hc
  exact h (List.mem_of_mem_filter hc)

theorem mem_filter_ne_self (i : Nat) (l : List Nat) (h : i ∉ l) :
    l.filter (fun m => m != i) = l := by
  refine filter_eq_self_of_all _ l (fun a ha => ?_)
  have : a ≠ i := fun heq => h (heq ▸ ha)
  simpa using this

theorem link_to_collection_collections (doc : Doc) (i : Nat) (n : String) :
    (link_to_collection doc i n).collections = doc.collections.map (fun c =>
      if c.name == n then
        { c with members := c.members.filter (fun m => m != i) ++ [i] }
      else { c with members := c.members.filter (fun m => m != i) }) := by
  unfold link_to_collection
  dsimp only
  rw [List.map_map]
  congr 1
  funext c
  by_cases hcn : c.name = n
  · simp only [Function.comp, hcn, beq_self_eq_true, if_true,
      if_neg (not_mem_filter_ne i c.members)]
  · have : (c.name == n) = false := by simpa using hcn
    simp only [Function.comp, this, Bool.false_eq_true, if_false]

theorem link_to_collection_root (doc : Doc) (i : Nat) (n : String) :
    (link_to_collection doc i n).root_members =
      doc.root_members.filter (fun m => m != i) := rfl

theorem link_to_collection_objects (doc : Doc) (i : Nat) (n : String) :
    (link_to_collection doc i n).objects = doc.objects := rfl

theorem find?_name_unique (l : List Collection)
    (hnd : (l.map Collection.name).Nodup) (c0 : Collection)
    (hf : l.find? (fun c => c.name == COLLECTION_NAME) = some c0) :
    ∀ c ∈ l, c.name = COLLECTION_NAME → c = c0 := by
  induction l with
  | nil => intro c hc; exact absurd hc (List.not_mem_nil c)
  | cons b l ih =>
    intro c hc hcn
    simp only [List.map_cons, List.nodup_cons] at hnd
    by_cases hbn : b.name = COLLECTION_NAME
    · have hc0 : c0 = b := by
        have hb : (b.name == COLLECTION_NAME) = true := by simpa using hbn
        simp only [List.find?_cons, hb] at hf
        exact (Option.some.inj hf).symm
      rcases List.mem_cons.mp hc with rfl | hc2
      · rw [hc0]
      · exfalso
        exact hnd.1 (by rw [hbn, ← hcn]; exact List.mem_map_of_mem Collection.name hc2)
    · have hb : (b.name == COLLECTION_NAME) = false := by simpa using hbn
      simp only [List.find?_cons, hb] at hf
      rcases List.mem_cons.mp hc with rfl | hc2
      · exact absurd hcn hbn
      · exact ih hnd.2 hf c hc2 hcn

theorem doc_eq_of_fields (doc1 doc2 : Doc)
    (h1 : doc1.objects = doc2.objects) (h2 : doc1.collections = doc2.collections)
    (h3 : doc1.scene_children = doc2.scene_children)
    (h4 : doc1.root_members = doc2.root_members)
    (h5 : doc1.materials = doc2.materials) (h6 : doc1.next_id = doc2.next_id)
    (h7 : doc1.active = doc2.active) (h8 : doc1.selected = doc2.selected) :
    doc1 = doc2 := by
  cases doc1
  cases doc2
  simp_all

/-- The per-collection effect of _link_to_collection. -/
def linkColFn (i : Nat) (n : String) : Collection → Collection := fun c =>
  if c.name == n then
    { c with members := c.members.filter (fun m => m != i) ++ [i] }
  else { c with members := c.members.filter (fun m => m != i) }

theorem linkColFn_name (i : Nat) (n : String) (c : Collection) :
    (linkColFn i n c).name = c.name := by
  unfold linkColFn
  split <;> rfl

theorem linkColFn_of_eq (i : Nat) (n : String) (c : Collection) (h : c.name = n) :
    linkColFn i n c = { c with members := c.members.filter (fun m => m != i) ++ [i] } := by
  unfold linkColFn
  simp only [show (c.name == n) = true by simpa using h, if_true]

theorem linkColFn_of_ne (i : Nat) (n : String) (c : Collection) (h : c.name ≠ n) :
    linkColFn i n c = { c with members := c.members.filter (fun m => m != i) } := by
  unfold linkColFn
  simp only [show (c.name == n) = false by simpa using h, Bool.false_eq_true, if_false]

theorem link_link_collections (doc : Doc) (d e : Nat) (n : String) :
    (link_to_collection (link_to_collection doc d n) e n).collections =
      doc.collections.map (fun c => linkColFn e n (linkColFn d n c)) := by
  rw [link_to_collection_collections, link_to_collection_collections, List.map_map]
  rfl

theorem linkColFn2_of_eq (d e : Nat) (n : String) (c : Collection) (h : c.name = n) :
    linkColFn e n (linkColFn d n c) =
      { c with members :=
        ((c.members.filter (fun m => m != d)) ++ [d]).filter (fun m => m != e) ++ [e] } := by
  unfold linkColFn
  simp only [show (c.name == n) = true by simpa using h, if_true]

theorem linkColFn2_of_ne (d e : Nat) (n : String) (c : Collection) (h : c.name ≠ n) :
    linkColFn e n (linkColFn d n c) =
      { c with members := (c.members.filter (fun m => m != d)).filter (fun m => m != e) } := by
  unfold linkColFn
  simp only [show (c.name == n) = false by simpa using h, Bool.false_eq_true, if_false]

theorem link_link_establishes (docb : Doc) (d e : Nat) (hne : d ≠ e)
    (hcoln : (docb.collections.map Collection.name).Nodup)
    (c0 : Collection)
    (hfind : docb.collections.find? (fun c => c.name == COLLECTION_NAME) = some c0) :
    colMembersOpt (link_to_collection (link_to_collection docb d COLLECTION_NAME) e
        COLLECTION_NAME) COLLECTION_NAME =
      some (((c0.members.filter (fun m => m != d)).filter (fun m => m != e)) ++ [d, e]) ∧
    (∀ c ∈ (link_to_collection (link_to_collection docb d COLLECTION_NAME) e
        COLLECTION_NAME).collections,
      c.name ≠ COLLECTION_NAME → d ∉ c.members ∧ e ∉ c.members) ∧
    d ∉ (link_to_collection (link_to_collection docb d COLLECTION_NAME) e
        COLLECTION_NAME).root_members ∧
    e ∉ (link_to_collection (link_to_collection docb d COLLECTION_NAME) e
        COLLECTION_NAME).root_members ∧
    ((link_to_collection (link_to_collection docb d COLLECTION_NAME) e
        COLLECTION_NAME).collections.map Collection.name).Nodup ∧
    (link_to_collection (link_to_collection docb d COLLECTION_NAME) e
        COLLECTION_NAME).objects = docb.objects := by
  have hfn : ∀ c, (linkColFn e COLLECTION_NAME (linkColFn d COLLECTION_NAME c)).name =
      c.name := fun c => by rw [linkColFn_name, linkColFn_name]
  have hcols := link_link_collections docb d e COLLECTION_NAME
  have hc0n : c0.name = COLLECTION_NAME := by simpa using find?_some_pred _ hfind
  have hdflt : ([d].filter (fun m => m != e)) = [d] := by simp [hne]
  have hF : linkColFn e COLLECTION_NAME (linkColFn d COLLECTION_NAME c0) =
      { c0 with members :=
        ((c0.members.filter (fun m => m != d)).filter (fun m => m != e)) ++ [d, e] } := by
    rw [linkColFn2_of_eq d e _ c0 hc0n]
    congr 1
    rw [List.filter_append, hdflt, List.append_assoc]
    rfl
  refine ⟨?_, ?_, ?_, ?_, ?_, rfl⟩
  · unfold colMembersOpt
    rw [hcols]
    rw [find?_map_pred_stable (fun c => linkColFn e COLLECTION_NAME
        (linkColFn d COLLECTION_NAME c)) (fun c => c.name == COLLECTION_NAME)
        (fun c => by
          show ((linkColFn e COLLECTION_NAME (linkColFn d COLLECTION_NAME c)).name ==
            COLLECTION_NAME) = (c.name == COLLECTION_NAME)
          rw [hfn c]), hfind]
    rw [Option.map_some', Option.map_some', hF]
  · intro c hc hcn
    rw [hcols] at hc
    obtain ⟨c1, hc1, rfl⟩ := List.mem_map.mp hc
    rw [hfn] at hcn
    rw [linkColFn2_of_ne d e _ c1 hcn]
    constructor
    · exact not_mem_filter_of_not_mem d _ _ (not_mem_filter_ne d c1.members)
    · exact not_mem_filter_ne e _
  · rw [link_to_collection_root, link_to_collection_root]
    exact not_mem_filter_of_not_mem d _ _ (not_mem_filter_ne d docb.root_members)
  · rw [link_to_collection_root, link_to_collection_root]
    exact not_mem_filter_ne e _
  · rw [hcols, List.map_map]
    have hcomp : (Collection.name ∘ fun c => linkColFn e COLLECTION_NAME
        (linkColFn d COLLECTION_NAME c)) = Collection.name := funext hfn
    rw [hcomp]
    exact hcoln

theorem link_link_stable (doc : Doc) (d e : Nat) (hne : d ≠ e)
    (hcoln : (doc.collections.map Collection.name).Nodup)
    (c0 : Collection) (pre : List Nat)
    (hfind : doc.collections.find? (fun c => c.name == COLLECTION_NAME) = some c0)
    (hmem0 : c0.members = pre ++ [d, e]) (hdpre : d ∉ pre) (hepre : e ∉ pre)
    (hothers : ∀ c ∈ doc.collections, c.name ≠ COLLECTION_NAME →
      d ∉ c.members ∧ e ∉ c.members)
    (hdroot : d ∉ doc.root_members) (heroot : e ∉ doc.root_members) :
    link_to_collection (link_to_collection doc d COLLECTION_NAME) e COLLECTION_NAME =
      doc := by
  have hcols : (link_to_collection (link_to_collection doc d COLLECTION_NAME) e
      COLLECTION_NAME).collections = doc.collections := by
    rw [link_link_collections]
    refine map_eq_self_of_fixed _ _ (fun c hc => ?_)
    by_cases hcn : c.name = COLLECTION_NAME
    · have hceq : c = c0 := find?_name_unique doc.collections hcoln c0 hfind c hc hcn
      subst hceq
      rw [linkColFn2_of_eq d e _ c hcn]
      have hmm : ((c.members.filter (fun m => m != d)) ++ [d]).filter
          (fun m => m != e) ++ [e] = c.members := by
        rw [List.filter_append, hmem0]
        have h1 : ((pre ++ [d, e]).filter (fun m => m != d)) = pre ++ [e] := by
          rw [List.filter_append, mem_filter_ne_self d pre hdpre]
          have h0 : [d, e].filter (fun m => m != d) = [e] := by
            simp [Ne.symm hne]
          rw [h0]
        rw [h1, List.filter_append, mem_filter_ne_self e pre hepre]
        have h2 : [e].filter (fun m => m != e) = ([] : List Nat) := by simp
        have h3 : [d].filter (fun m => m != e) = [d] := by simp [hne]
        rw [h2, h3, List.append_nil, List.append_assoc]
        rfl
      rw [hmm]
    · have hdm := (hothers c hc hcn).1
      have hem := (hothers c hc hcn).2
      rw [linkColFn2_of_ne d e _ c hcn,
        mem_filter_ne_self d c.members hdm, mem_filter_ne_self e c.members hem]
  have hroot : (link_to_collection (link_to_collection doc d COLLECTION_NAME) e
      COLLECTION_NAME).root_members = doc.root_members := by
    rw [link_to_collection_root, link_to_collection_root,
      mem_filter_ne_self d doc.root_members hdroot,
      mem_filter_ne_self e doc.root_members heroot]
  exact doc_eq_of_fields _ _ rfl hcols rfl hroot rfl rfl rfl rfl

theorem ensure_collection_objects (doc : Doc) (n : String) :
    (ensure_collection doc n).objects = doc.objects := by
  unfold ensure_collection
  cases doc.collections.find? (fun c => c.name == n) <;> rfl

theorem ensure_collection_next (doc : Doc) (n : String) :
    (ensure_collection doc n).next_id = doc.next_id := by
  unfold ensure_collection
  cases doc.collections.find? (fun c => c.name == n) <;> rfl

theorem dataObjectsGet_ensure_collection (doc : Doc) (n m : String) :
    dataObjectsGet (ensure_collection doc n) m = dataObjectsGet doc m := by
  unfold dataObjectsGet
  rw [ensure_collection_objects]

theorem ensure_collection_colNames (doc : Doc) (n : String)
    (h : (doc.collections.map Collection.name).Nodup) :
    ((ensure_collection doc n).collections.map Collection.name).Nodup := by
  unfold ensure_collection
  cases hf : doc.collections.find? (fun c => c.name == n) with
  | some c => exact h
  | none =>
    have hall := find?_none_of_all_not _ _ hf
    rw [List.map_append]
    refine List.Nodup.append h (by simp) ?_
    intro a ha hb
    obtain ⟨c, hc, rfl⟩ := List.mem_map.mp ha
    simp only [List.map_cons, List.map_nil, List.mem_singleton] at hb
    have := hall c hc
    rw [hb] at this
    simp at this

theorem ensure_collection_find (doc : Doc) (n : String) :
    ∃ c, (ensure_collection doc n).collections.find? (fun c2 => c2.name == n) = some c ∧
      ((∀ x ∈ doc.collections, x.name = n → x.members = []) → c.members = []) := by
  unfold ensure_collection
  cases hf : doc.collections.find? (fun c2 => c2.name == n) with
  | some c =>
    refine ⟨c, hf, fun hg => ?_⟩
    exact hg c (find?_some_mem _ hf) (by simpa using find?_some_pred _ hf)
  | none =>
    refine ⟨⟨n, []⟩, ?_, fun _ => rfl⟩
    rw [find?_append_distrib, hf]
    simp [List.find?]

/-- The object created by primitive-add-then-rename: the fresh id, the
rename target name, the primitive's kind and location, identity transforms
and no modifiers or slots. -/
def freshRenamed (i : Nat) (nm kind : String) (loc : V3) : Obj where
  id := i
  name := nm
  location := loc
  scale := (1.0, 1.0, 1.0)
  applied_scale := (1.0, 1.0, 1.0)
  display_type := "TEXTURED"
  mesh_kind := kind
  modifiers := []
  material_slots := []

theorem create_missing_objects (doc : Doc) (base kind nm : String) (loc : V3)
    (hnext : ∀ o ∈ doc.objects, o.id < doc.next_id) :
    (renameObject (primitiveAdd doc base kind loc).1 (primitiveAdd doc base kind loc).2
      nm).objects = doc.objects ++ [freshRenamed doc.next_id nm kind loc] := by
  unfold renameObject primitiveAdd updateObj
  dsimp only
  rw [List.map_append]
  congr 1
  · refine map_eq_self_of_fixed _ _ (fun o ho => ?_)
    have hne : o.id ≠ doc.next_id := Nat.ne_of_lt (hnext o ho)
    simp [hne]
  · simp [freshRenamed]

theorem create_missing_collections (doc : Doc) (base kind nm : String) (loc : V3) :
    (renameObject (primitiveAdd doc base kind loc).1 (primitiveAdd doc base kind loc).2
      nm).collections = doc.collections := rfl

theorem create_missing_next (doc : Doc) (base kind nm : String) (loc : V3) :
    (renameObject (primitiveAdd doc base kind loc).1 (primitiveAdd doc base kind loc).2
      nm).next_id = doc.next_id + 1 := rfl

/-- Assembling RigState after the two link calls, from the mid-state facts
(objects resolved, unique names, the grouping collection found). -/
theorem head_assemble (docb : Doc) (d e : Nat) (hne : d ≠ e)
    (hdn : idOfName docb DOMAIN_NAME = some d)
    (hen : idOfName docb EMITTER_NAME = some e)
    (hnodup : (docb.objects.map Obj.name).Nodup)
    (hcoln : (docb.collections.map Collection.name).Nodup)
    (c0 : Collection)
    (hfind : docb.collections.find? (fun c => c.name == COLLECTION_NAME) = some c0) :
    RigState (link_to_collection (link_to_collection docb d COLLECTION_NAME) e
      COLLECTION_NAME) d e ∧
    (c0.members = [] →
      colMembersOpt (link_to_collection (link_to_collection docb d COLLECTION_NAME) e
        COLLECTION_NAME) COLLECTION_NAME = some [d, e]) := by
  obtain ⟨hmem, hothers, hdroot, heroot, hcoln2, hobjs⟩ :=
    link_link_establishes docb d e hne hcoln c0 hfind
  constructor
  · refine ⟨hne, ?_, ?_, ?_, hcoln2, ⟨_, hmem, ?_, ?_⟩, hothers, hdroot, heroot⟩
    · unfold idOfName dataObjectsGet at hdn ⊢
      rw [hobjs]
      exact hdn
    · unfold idOfName dataObjectsGet at hen ⊢
      rw [hobjs]
      exact hen
    · show ((link_to_collection (link_to_collection docb d COLLECTION_NAME) e
        COLLECTION_NAME).objects.map Obj.name).Nodup
      rw [hobjs]
      exact hnodup
    · exact not_mem_filter_of_not_mem d _ _ (not_mem_filter_ne d c0.members)
    · exact not_mem_filter_ne e _
  · intro hce
    rw [hce] at hmem
    simpa using hmem

theorem find?_single_obj (o : Obj) (n : String) :
    [o].find? (fun x => x.name == n) = if o.name == n then some o else none := by
  cases hpo : (o.name == n) <;> simp [List.find?_cons, hpo]

theorem create_rig_head_post (doc : Doc) (hwf : WFDoc doc) :
    RigState (create_rig_head doc).1 (create_rig_head doc).2.1 (create_rig_head doc).2.2 ∧
    ((∀ x ∈ doc.collections, x.name = COLLECTION_NAME → x.members = []) →
      colMembersOpt (create_rig_head doc).1 COLLECTION_NAME =
        some [(create_rig_head doc).2.1, (create_rig_head doc).2.2]) := by
  obtain ⟨hids, hnames, hcoln, hnext⟩ := hwf
  obtain ⟨c0, hc0find, hc0guard⟩ := ensure_collection_find doc COLLECTION_NAME
  have hDE : DOMAIN_NAME ≠ EMITTER_NAME := by decide
  have hcolnb : ((ensure_collection doc COLLECTION_NAME).collections.map
      Collection.name).Nodup := ensure_collection_colNames doc COLLECTION_NAME hcoln
  have hnb : ((ensure_collection doc COLLECTION_NAME).objects.map Obj.name).Nodup := by
    rw [ensure_collection_objects]
    exact hnames
  have hnextb : ∀ o ∈ (ensure_collection doc COLLECTION_NAME).objects,
      o.id < (ensure_collection doc COLLECTION_NAME).next_id := by
    rw [ensure_collection_objects, ensure_collection_next]
    exact hnext
  unfold create_rig_head
  dsimp only
  rw [dataObjectsGet_ensure_collection doc COLLECTION_NAME DOMAIN_NAME]
  cases hd : dataObjectsGet doc DOMAIN_NAME with
  | some od =>
    have hd' : doc.objects.find? (fun o => o.name == DOMAIN_NAME) = some od := hd
    have hodm : od ∈ doc.objects := find?_some_mem _ hd'
    have hodn : od.name = DOMAIN_NAME := by simpa using find?_some_pred _ hd'
    dsimp only
    rw [dataObjectsGet_ensure_collection doc COLLECTION_NAME EMITTER_NAME]
    cases he : dataObjectsGet doc EMITTER_NAME with
    | some oe =>
      have he' : doc.objects.find? (fun o => o.name == EMITTER_NAME) = some oe := he
      have hoem : oe ∈ doc.objects := find?_some_mem _ he'
      have hoen : oe.name = EMITTER_NAME := by simpa using find?_some_pred _ he'
      have hne : od.id ≠ oe.id := by
        intro heq
        have hoo : od = oe := List.inj_on_of_nodup_map hids hodm hoem heq
        exact hDE (by rw [← hodn, hoo, hoen])
      have hdn : idOfName (ensure_collection doc COLLECTION_NAME) DOMAIN_NAME =
          some od.id := by
        unfold idOfName
        rw [dataObjectsGet_ensure_collection, hd]
        rfl
      have hen : idOfName (ensure_collection doc COLLECTION_NAME) EMITTER_NAME =
          some oe.id := by
        unfold idOfName
        rw [dataObjectsGet_ensure_collection, he]
        rfl
      have HA := head_assemble (ensure_collection doc COLLECTION_NAME) od.id oe.id
        hne hdn hen hnb hcolnb c0 hc0find
      exact ⟨HA.1, fun hg => HA.2 (hc0guard hg)⟩
    | none =>
      have he' : doc.objects.find? (fun o => o.name == EMITTER_NAME) = none := he
      have heall := find?_none_of_all_not _ _ he'
      dsimp only
      have hobjb : (renameObject (primitiveAdd (ensure_collection doc COLLECTION_NAME)
          "Cylinder" "CYLINDER" (0.0, 0.0, 0.25)).1
          (primitiveAdd (ensure_collection doc COLLECTION_NAME)
          "Cylinder" "CYLINDER" (0.0, 0.0, 0.25)).2 EMITTER_NAME).objects =
          doc.objects ++ [freshRenamed doc.next_id EMITTER_NAME "CYLINDER"
            (0.0, 0.0, 0.25)] := by
        rw [create_missing_objects _ _ _ _ _ hnextb, ensure_collection_objects,
          ensure_collection_next]
      have he2 : (primitiveAdd (ensure_collection doc COLLECTION_NAME)
          "Cylinder" "CYLINDER" (0.0, 0.0, 0.25)).2 = doc.next_id := by
        show (ensure_collection doc COLLECTION_NAME).next_id = doc.next_id
        exact ensure_collection_next doc COLLECTION_NAME
      have hdn : idOfName (renameObject (primitiveAdd (ensure_collection doc
          COLLECTION_NAME) "Cylinder" "CYLINDER" (0.0, 0.0, 0.25)).1
          (primitiveAdd (ensure_collection doc COLLECTION_NAME)
          "Cylinder" "CYLINDER" (0.0, 0.0, 0.25)).2 EMITTER_NAME) DOMAIN_NAME =
          some od.id := by
        unfold idOfName dataObjectsGet
        rw [hobjb, find?_append_distrib, hd']
        rfl
      have hen : idOfName (renameObject (primitiveAdd (ensure_collection doc
          COLLECTION_NAME) "Cylinder" "CYLINDER" (0.0, 0.0, 0.25)).1
          (primitiveAdd (ensure_collection doc COLLECTION_NAME)
          "Cylinder" "CYLINDER" (0.0, 0.0, 0.25)).2 EMITTER_NAME) EMITTER_NAME =
          some ((primitiveAdd (ensure_collection doc COLLECTION_NAME)
          "Cylinder" "CYLINDER" (0.0, 0.0, 0.25)).2) := by
        conv_rhs => rw [he2]
        unfold idOfName dataObjectsGet
        rw [hobjb, find?_append_distrib, he', find?_single_obj]
        simp [freshRenamed]
      have hne : od.id ≠ (primitiveAdd (ensure_collection doc COLLECTION_NAME)
          "Cylinder" "CYLINDER" (0.0, 0.0, 0.25)).2 := by
        rw [he2]
        exact Nat.ne_of_lt (hnext od hodm)
      have hnodupb : ((renameObject (primitiveAdd (ensure_collection doc
          COLLECTION_NAME) "Cylinder" "CYLINDER" (0.0, 0.0, 0.25)).1
          (primitiveAdd (ensure_collection doc COLLECTION_NAME)
          "Cylinder" "CYLINDER" (0.0, 0.0, 0.25)).2 EMITTER_NAME).objects.map
          Obj.name).Nodup := by
        rw [hobjb, List.map_append]
        refine List.Nodup.append hnames (by simp) ?_
        intro a ha hb
        obtain ⟨o, ho, rfl⟩ := List.mem_map.mp ha
        simp only [freshRenamed, List.map_cons, List.map_nil, List.mem_singleton] at hb
        have := heall o ho
        rw [hb] at this
        simp at this
      have HA := head_assemble _ od.id
        ((primitiveAdd (ensure_collection doc COLLECTION_NAME)
          "Cylinder" "CYLINDER" (0.0, 0.0, 0.25)).2)
        hne hdn hen hnodupb hcolnb c0 hc0find
      exact ⟨HA.1, fun hg => HA.2 (hc0guard hg)⟩
  | none =>
    have hd' : doc.objects.find? (fun o => o.name == DOMAIN_NAME) = none := hd
    have hdall := find?_none_of_all_not _ _ hd'
    dsimp only
    have hobjA : (renameObject (primitiveAdd (ensure_collection doc COLLECTION_NAME)
        "Cube" "CUBE" (0.0, 0.0, 1.0)).1
        (primitiveAdd (ensure_collection doc COLLECTION_NAME)
        "Cube" "CUBE" (0.0, 0.0, 1.0)).2 DOMAIN_NAME).objects =
        doc.objects ++ [freshRenamed doc.next_id DOMAIN_NAME "CUBE" (0.0, 0.0, 1.0)] := by
      rw [create_missing_objects _ _ _ _ _ hnextb, ensure_collection_objects,
        ensure_collection_next]
    have hd2 : (primitiveAdd (ensure_collection doc COLLECTION_NAME)
        "Cube" "CUBE" (0.0, 0.0, 1.0)).2 = doc.next_id := by
      show (ensure_collection doc COLLECTION_NAME).next_id = doc.next_id
      exact ensure_collection_next doc COLLECTION_NAME
    have hAe : dataObjectsGet (renameObject (primitiveAdd (ensure_collection doc
        COLLECTION_NAME) "Cube" "CUBE" (0.0, 0.0, 1.0)).1
        (primitiveAdd (ensure_collection doc COLLECTION_NAME)
        "Cube" "CUBE" (0.0, 0.0, 1.0)).2 DOMAIN_NAME) EMITTER_NAME =
        dataObjectsGet doc EMITTER_NAME := by
      unfold dataObjectsGet
      rw [hobjA, find?_append_distrib, find?_single_obj]
      have hfr : ((freshRenamed doc.next_id DOMAIN_NAME "CUBE" (0.0, 0.0, 1.0)).name ==
          EMITTER_NAME) = false := rfl
      rw [hfr]
      cases doc.objects.find? (fun o => o.name == EMITTER_NAME) <;> rfl
    have hdnA : idOfName (renameObject (primitiveAdd (ensure_collection doc
        COLLECTION_NAME) "Cube" "CUBE" (0.0, 0.0, 1.0)).1
        (primitiveAdd (ensure_collection doc COLLECTION_NAME)
        "Cube" "CUBE" (0.0, 0.0, 1.0)).2 DOMAIN_NAME) DOMAIN_NAME =
        some ((primitiveAdd (ensure_collection doc COLLECTION_NAME)
        "Cube" "CUBE" (0.0, 0.0, 1.0)).2) := by
      conv_rhs => rw [hd2]
      unfold idOfName dataObjectsGet
      rw [hobjA, find?_append_distrib, hd', find?_single_obj]
      simp [freshRenamed]
    have hnodupA : ((renameObject (primitiveAdd (ensure_collection doc
        COLLECTION_NAME) "Cube" "CUBE" (0.0, 0.0, 1.0)).1
        (primitiveAdd (ensure_collection doc COLLECTION_NAME)
        "Cube" "CUBE" (0.0, 0.0, 1.0)).2 DOMAIN_NAME).objects.map Obj.name).Nodup := by
      rw [hobjA, List.map_append]
      refine List.Nodup.append hnames (by simp) ?_
      intro a ha hb
      obtain ⟨o, ho, rfl⟩ := List.mem_map.mp ha
      simp only [freshRenamed, List.map_cons, List.map_nil, List.mem_singleton] at hb
      have := hdall o ho
      rw [hb] at this
      simp at this
    rw [hAe]
    cases he : dataObjectsGet doc EMITTER_NAME with
    | some oe =>
      have he' : doc.objects.find? (fun o => o.name == EMITTER_NAME) = some oe := he
      have hoem : oe ∈ doc.objects := find?_some_mem _ he'
      have hne : (primitiveAdd (ensure_collection doc COLLECTION_NAME)
          "Cube" "CUBE" (0.0, 0.0, 1.0)).2 ≠ oe.id := by
        rw [hd2]
        exact (Nat.ne_of_lt (hnext oe hoem)).symm
      have henA : idOfName (renameObject (primitiveAdd (ensure_collection doc
          COLLECTION_NAME) "Cube" "CUBE" (0.0, 0.0, 1.0)).1
          (primitiveAdd (ensure_collection doc COLLECTION_NAME)
          "Cube" "CUBE" (0.0, 0.0, 1.0)).2 DOMAIN_NAME) EMITTER_NAME =
          some oe.id := by
        unfold idOfName dataObjectsGet
        rw [hobjA, find?_append_distrib, he']
        rfl
      have HA := head_assemble _
        ((primitiveAdd (ensure_collection doc COLLECTION_NAME)
          "Cube" "CUBE" (0.0, 0.0, 1.0)).2) oe.id
        hne hdnA henA hnodupA hcolnb c0 hc0find
      exact ⟨HA.1, fun hg => HA.2 (hc0guard hg)⟩
    | none =>
      have he' : doc.objects.find? (fun o => o.name == EMITTER_NAME) = none := he
      have heall := find?_none_of_all_not _ _ he'
      dsimp only
      have hnextA : ∀ o ∈ (renameObject (primitiveAdd (ensure_collection doc
          COLLECTION_NAME) "Cube" "CUBE" (0.0, 0.0, 1.0)).1
          (primitiveAdd (ensure_collection doc COLLECTION_NAME)
          "Cube" "CUBE" (0.0, 0.0, 1.0)).2 DOMAIN_NAME).objects,
          o.id < (renameObject (primitiveAdd (ensure_collection doc
          COLLECTION_NAME) "Cube" "CUBE" (0.0, 0.0, 1.0)).1
          (primitiveAdd (ensure_collection doc COLLECTION_NAME)
          "Cube" "CUBE" (0.0, 0.0, 1.0)).2 DOMAIN_NAME).next_id := by
        rw [hobjA, create_missing_next, ensure_collection_next]
        intro o ho
        rcases List.mem_append.mp ho with h1 | h2
        · exact Nat.lt_succ_of_lt (hnext o h1)
        · simp only [List.mem_singleton] at h2
          rw [h2]
          exact Nat.lt_succ_self doc.next_id
      have he2B : (primitiveAdd (renameObject (primitiveAdd
          (ensure_collection doc COLLECTION_NAME) "Cube" "CUBE" (0.0, 0.0, 1.0)).1
          (primitiveAdd (ensure_collection doc COLLECTION_NAME)
          "Cube" "CUBE" (0.0, 0.0, 1.0)).2 DOMAIN_NAME)
          "Cylinder" "CYLINDER" (0.0, 0.0, 0.25)).2 = doc.next_id + 1 := by
        show (renameObject (primitiveAdd (ensure_collection doc COLLECTION_NAME)
          "Cube" "CUBE" (0.0, 0.0, 1.0)).1
          (primitiveAdd (ensure_collection doc COLLECTION_NAME)
          "Cube" "CUBE" (0.0, 0.0, 1.0)).2 DOMAIN_NAME).next_id = doc.next_id + 1
        rw [create_missing_next, ensure_collection_next]
      have hobjB : (renameObject (primitiveAdd (renameObject (primitiveAdd
          (ensure_collection doc COLLECTION_NAME) "Cube" "CUBE" (0.0, 0.0, 1.0)).1
          (primitiveAdd (ensure_collection doc COLLECTION_NAME)
          "Cube" "CUBE" (0.0, 0.0, 1.0)).2 DOMAIN_NAME)
          "Cylinder" "CYLINDER" (0.0, 0.0, 0.25)).1
          (primitiveAdd (renameObject (primitiveAdd
          (ensure_collection doc COLLECTION_NAME) "Cube" "CUBE" (0.0, 0.0, 1.0)).1
          (primitiveAdd (ensure_collection doc COLLECTION_NAME)
          "Cube" "CUBE" (0.0, 0.0, 1.0)).2 DOMAIN_NAME)
          "Cylinder" "CYLINDER" (0.0, 0.0, 0.25)).2 EMITTER_NAME).objects =
          (doc.objects ++ [freshRenamed doc.next_id DOMAIN_NAME "CUBE" (0.0, 0.0, 1.0)])
          ++ [freshRenamed (doc.next_id + 1) EMITTER_NAME "CYLINDER"
            (0.0, 0.0, 0.25)] := by
        rw [create_missing_objects _ _ _ _ _ hnextA, hobjA, create_missing_next,
          ensure_collection_next]
      have hdnB : idOfName (renameObject (primitiveAdd (renameObject (primitiveAdd
          (ensure_collection doc COLLECTION_NAME) "Cube" "CUBE" (0.0, 0.0, 1.0)).1
          (primitiveAdd (ensure_collection doc COLLECTION_NAME)
          "Cube" "CUBE" (0.0, 0.0, 1.0)).2 DOMAIN_NAME)
          "Cylinder" "CYLINDER" (0.0, 0.0, 0.25)).1
          (primitiveAdd (renameObject (primitiveAdd
          (ensure_collection doc COLLECTION_NAME) "Cube" "CUBE" (0.0, 0.0, 1.0)).1
          (primitiveAdd (ensure_collection doc COLLECTION_NAME)
          "Cube" "CUBE" (0.0, 0.0, 1.0)).2 DOMAIN_NAME)
          "Cylinder" "CYLINDER" (0.0, 0.0, 0.25)).2 EMITTER_NAME) DOMAIN_NAME =
          some ((primitiveAdd (ensure_collection doc COLLECTION_NAME)
          "Cube" "CUBE" (0.0, 0.0, 1.0)).2) := by
        conv_rhs => rw [hd2]
        unfold idOfName dataObjectsGet
        rw [hobjB, find?_append_distrib, find?_append_distrib, hd',
          find?_single_obj, find?_single_obj]
        rw [show ((freshRenamed doc.next_id DOMAIN_NAME "CUBE"
          (0.0, 0.0, 1.0)).name == DOMAIN_NAME) = true from rfl]
        rfl
      have henB : idOfName (renameObject (primitiveAdd (renameObject (primitiveAdd
          (ensure_collection doc COLLECTION_NAME) "Cube" "CUBE" (0.0, 0.0, 1.0)).1
          (primitiveAdd (ensure_collection doc COLLECTION_NAME)
          "Cube" "CUBE" (0.0, 0.0, 1.0)).2 DOMAIN_NAME)
          "Cylinder" "CYLINDER" (0.0, 0.0, 0.25)).1
          (primitiveAdd (renameObject (primitiveAdd
          (ensure_collection doc COLLECTION_NAME) "Cube" "CUBE" (0.0, 0.0, 1.0)).1
          (primitiveAdd (ensure_collection doc COLLECTION_NAME)
          "Cube" "CUBE" (0.0, 0.0, 1.0)).2 DOMAIN_NAME)
          "Cylinder" "CYLINDER" (0.0, 0.0, 0.25)).2 EMITTER_NAME) EMITTER_NAME =
          some ((primitiveAdd (renameObject (primitiveAdd
          (ensure_collection doc COLLECTION_NAME) "Cube" "CUBE" (0.0, 0.0, 1.0)).1
          (primitiveAdd (ensure_collection doc COLLECTION_NAME)
          "Cube" "CUBE" (0.0, 0.0, 1.0)).2 DOMAIN_NAME)
          "Cylinder" "CYLINDER" (0.0, 0.0, 0.25)).2) := by
        conv_rhs => rw [he2B]
        unfold idOfName dataObjectsGet
        rw [hobjB, find?_append_distrib, find?_append_distrib, he',
          find?_single_obj, find?_single_obj]
        rw [show ((freshRenamed doc.next_id DOMAIN_NAME "CUBE"
          (0.0, 0.0, 1.0)).name == EMITTER_NAME) = false from rfl]
        rw [show ((freshRenamed (doc.next_id + 1) EMITTER_NAME "CYLINDER"
          (0.0, 0.0, 0.25)).name == EMITTER_NAME) = true from rfl]
        rfl
      have hneB : (primitiveAdd (ensure_collection doc COLLECTION_NAME)
          "Cube" "CUBE" (0.0, 0.0, 1.0)).2 ≠
          (primitiveAdd (renameObject (primitiveAdd
          (ensure_collection doc COLLECTION_NAME) "Cube" "CUBE" (0.0, 0.0, 1.0)).1
          (primitiveAdd (ensure_collection doc COLLECTION_NAME)
          "Cube" "CUBE" (0.0, 0.0, 1.0)).2 DOMAIN_NAME)
          "Cylinder" "CYLINDER" (0.0, 0.0, 0.25)).2 := by
        rw [he2B, hd2]
        exact Nat.ne_of_lt (Nat.lt_succ_self _)
      have hnodupB : ((renameObject (primitiveAdd (renameObject (primitiveAdd
          (ensure_collection doc COLLECTION_NAME) "Cube" "CUBE" (0.0, 0.0, 1.0)).1
          (primitiveAdd (ensure_collection doc COLLECTION_NAME)
          "Cube" "CUBE" (0.0, 0.0, 1.0)).2 DOMAIN_NAME)
          "Cylinder" "CYLINDER" (0.0, 0.0, 0.25)).1
          (primitiveAdd (renameObject (primitiveAdd
          (ensure_collection doc COLLECTION_NAME) "Cube" "CUBE" (0.0, 0.0, 1.0)).1
          (primitiveAdd (ensure_collection doc COLLECTION_NAME)
          "Cube" "CUBE" (0.0, 0.0, 1.0)).2 DOMAIN_NAME)
          "Cylinder" "CYLINDER" (0.0, 0.0, 0.25)).2 EMITTER_NAME).objects.map
          Obj.name).Nodup := by
        rw [hobjB, List.map_append, List.map_append]
        refine List.Nodup.append (List.Nodup.append hnames (by simp) ?_) (by simp) ?_
        · intro a ha hb
          obtain ⟨o, ho, rfl⟩ := List.mem_map.mp ha
          simp only [freshRenamed, List.map_cons, List.map_nil, List.mem_singleton] at hb
          have := hdall o ho
          rw [hb] at this
          simp at this
        · intro a ha hb
          simp only [freshRenamed, List.map_cons, List.map_nil, List.mem_singleton] at hb
          rcases List.mem_append.mp ha with h1 | h2
          · obtain ⟨o, ho, rfl⟩ := List.mem_map.mp h1
            have := heall o ho
            rw [hb] at this
            simp at this
          · simp only [freshRenamed, List.map_cons, List.map_nil,
              List.mem_singleton] at h2
            rw [hb] at h2
            exact hDE h2.symm
      have HA := head_assemble _
        ((primitiveAdd (ensure_collection doc COLLECTION_NAME)
          "Cube" "CUBE" (0.0, 0.0, 1.0)).2)
        ((primitiveAdd (renameObject (primitiveAdd
          (ensure_collection doc COLLECTION_NAME) "Cube" "CUBE" (0.0, 0.0, 1.0)).1
          (primitiveAdd (ensure_collection doc COLLECTION_NAME)
          "Cube" "CUBE" (0.0, 0.0, 1.0)).2 DOMAIN_NAME)
          "Cylinder" "CYLINDER" (0.0, 0.0, 0.25)).2)
        hneB hdnB henB hnodupB hcolnb c0 hc0find
      exact ⟨HA.1, fun hg => HA.2 (hc0guard hg)⟩

theorem idOfName_eq_of_objKeys (doc1 doc2 : Doc) (h : objKeys doc1 = objKeys doc2)
    (n : String) : idOfName doc1 n = idOfName doc2 n := by
  have hp := find?_proj (fun o : Obj => (o.id, o.name)) (fun p => p.2 == n)
    doc1.objects doc2.objects h
  have e1 : doc1.objects.find? (fun a => (a.id, a.name).2 == n) =
      dataObjectsGet doc1 n := rfl
  have e2 : doc2.objects.find? (fun a => (a.id, a.name).2 == n) =
      dataObjectsGet doc2 n := rfl
  rw [e1, e2] at hp
  calc idOfName doc1 n
      = ((dataObjectsGet doc1 n).map (fun o => (o.id, o.name))).map (fun p => p.1) := by
        unfold idOfName
        cases dataObjectsGet doc1 n <;> rfl
    _ = ((dataObjectsGet doc2 n).map (fun o => (o.id, o.name))).map
        (fun p => p.1) := by rw [hp]
    _ = idOfName doc2 n := by
        unfold idOfName
        cases dataObjectsGet doc2 n <;> rfl

theorem names_eq_of_objKeys (doc1 doc2 : Doc) (h : objKeys doc1 = objKeys doc2) :
    doc1.objects.map Obj.name = doc2.objects.map Obj.name := by
  have h2 := congrArg (List.map (fun p : Nat × String => p.2)) h
  unfold objKeys at h2
  rw [List.map_map, List.map_map] at h2
  exact h2

theorem colMembersOpt_create_tail (doc : Doc) (s : Settings) (d e : Nat) (n : String) :
    colMembersOpt (create_rig_from_apply_sizes doc s d e).1 n = colMembersOpt doc n := by
  unfold colMembersOpt
  rw [create_tail_collections]

/-- The tail of create_rig (sizes, fluid settings, shader, display hints)
renames nothing, deletes nothing, and touches no collection: the rig state
survives it. -/
theorem rigstate_create_tail (doc : Doc) (s : Settings) (d e : Nat)
    (h : RigState doc d e) : RigState (create_rig_from_apply_sizes doc s d e).1 d e := by
  obtain ⟨hne, hdn, hen, hnames, hcoln, hmem, hoth, hdr, her⟩ := h
  have hk := objKeys_create_tail doc s d e
  refine ⟨hne, ?_, ?_, ?_, ?_, ?_, ?_, ?_, ?_⟩
  · rw [idOfName_eq_of_objKeys _ doc hk DOMAIN_NAME]
    exact hdn
  · rw [idOfName_eq_of_objKeys _ doc hk EMITTER_NAME]
    exact hen
  · rw [names_eq_of_objKeys _ doc hk]
    exact hnames
  · rw [create_tail_collections]
    exact hcoln
  · rw [colMembersOpt_create_tail]
    exact hmem
  · rw [create_tail_collections]
    exact hoth
  · rw [create_tail_root]
    exact hdr
  · rw [create_tail_root]
    exact her

/-- On a document already in rig state, create_rig's head phase is the
identity: the collection is found, both names resolve, and relinking two
objects already in final position changes nothing. -/
theorem create_rig_head_of_rigstate (doc : Doc) (d e : Nat) (h : RigState doc d e) :
    create_rig_head doc = (doc, d, e) := by
  obtain ⟨hne, hdn, hen, hnames, hcoln, ⟨pre, hmem, hdpre, hepre⟩, hoth, hdr, her⟩ := h
  obtain ⟨c0, hfind, hc0m⟩ : ∃ c0,
      doc.collections.find? (fun c => c.name == COLLECTION_NAME) = some c0 ∧
      c0.members = pre ++ [d, e] := by
    unfold colMembersOpt at hmem
    cases hf : doc.collections.find? (fun c => c.name == COLLECTION_NAME) with
    | none =>
      rw [hf] at hmem
      exact absurd hmem (by simp)
    | some c0 =>
      rw [hf] at hmem
      exact ⟨c0, rfl, by simpa using hmem⟩
  obtain ⟨od, hod, hodid⟩ := Option.map_eq_some'.mp hdn
  obtain ⟨oe, hoe, hoeid⟩ := Option.map_eq_some'.mp hen
  have hens : ensure_collection doc COLLECTION_NAME = doc := by
    unfold ensure_collection
    rw [hfind]
  have hstable := link_link_stable doc d e hne hcoln c0 pre hfind hc0m hdpre hepre
    hoth hdr her
  unfold create_rig_head
  dsimp only
  rw [hens, hod]
  dsimp only
  rw [hoe]
  dsimp only
  rw [hodid, hoeid, hstable]

/-- C3 (amended): on a well-formed document whose FireVFX collection (if
any) starts empty, running create_rig twice creates nothing on the second
run: the object count and the collections are unchanged from the first
run, exactly one object carries each fixed rig name, and the grouping
collection holds exactly the domain id and the emitter id.  Without the
emptiness guard the "exactly those two members" part of the original
claim is false: a pre-existing foreign member of a collection named
FireVFX is kept in front of the two rig ids by both runs. -/
theorem c3_create_rig_twice_creates_nothing (doc : Doc) (s s2 : Settings)
    (hwf : WFDoc doc)
    (hguard : ∀ x ∈ doc.collections, x.name = COLLECTION_NAME → x.members = []) :
    (create_rig (create_rig doc s).1 s2).1.objects.length =
      (create_rig doc s).1.objects.length ∧
    (create_rig (create_rig doc s).1 s2).1.collections =
      (create_rig doc s).1.collections ∧
    (create_rig (create_rig doc s).1 s2).1.objects.countP
      (fun o => o.name == DOMAIN_NAME) = 1 ∧
    (create_rig (create_rig doc s).1 s2).1.objects.countP
      (fun o => o.name == EMITTER_NAME) = 1 ∧
    colMembersOpt (create_rig (create_rig doc s).1 s2).1 COLLECTION_NAME =
      some [(create_rig_head doc).2.1, (create_rig_head doc).2.2] := by
  obtain ⟨HR1, Hguard1⟩ := create_rig_head_post doc hwf
  have hc1 : (create_rig doc s).1 =
      (create_rig_from_apply_sizes (create_rig_head doc).1 s
        (create_rig_head doc).2.1 (create_rig_head doc).2.2).1 := rfl
  have HRt1 : RigState (create_rig doc s).1 (create_rig_head doc).2.1
      (create_rig_head doc).2.2 := by
    rw [hc1]
    exact rigstate_create_tail _ s _ _ HR1
  have hh2 := create_rig_head_of_rigstate (create_rig doc s).1
    (create_rig_head doc).2.1 (create_rig_head doc).2.2 HRt1
  have hc2 : (create_rig (create_rig doc s).1 s2).1 =
      (create_rig_from_apply_sizes (create_rig doc s).1 s2
        (create_rig_head doc).2.1 (create_rig_head doc).2.2).1 := by
    show (create_rig_from_apply_sizes (create_rig_head (create_rig doc s).1).1 s2
      (create_rig_head (create_rig doc s).1).2.1
      (create_rig_head (create_rig doc s).1).2.2).1 = _
    rw [hh2]
  have HR2 : RigState (create_rig (create_rig doc s).1 s2).1
      (create_rig_head doc).2.1 (create_rig_head doc).2.2 := by
    rw [hc2]
    exact rigstate_create_tail _ s2 _ _ HRt1
  obtain ⟨-, hdn2, hen2, hnames2, -, -, -, -, -⟩ := HR2
  have hk2 : objKeys (create_rig (create_rig doc s).1 s2).1 =
      objKeys (create_rig doc s).1 := by
    rw [hc2]
    exact objKeys_create_tail _ s2 _ _
  refine ⟨?_, ?_, ?_, ?_, ?_⟩
  · have hlen := congrArg List.length hk2
    simpa [objKeys, List.length_map] using hlen
  · rw [hc2, create_tail_collections]
  · obtain ⟨od, hod, -⟩ := Option.map_eq_some'.mp hdn2
    exact countP_eq_one_of_find?_nodup DOMAIN_NAME _ hnames2 od hod
  · obtain ⟨oe, hoe, -⟩ := Option.map_eq_some'.mp hen2
    exact countP_eq_one_of_find?_nodup EMITTER_NAME _ hnames2 oe hoe
  · rw [hc2, colMembersOpt_create_tail, hc1, colMembersOpt_create_tail]
    exact Hguard1 hguard

/-- A document where some foreign object already sits in a collection
named FireVFX before any rig exists. -/
def foreignDoc : Doc :=
  { emptyDoc with
    objects := [bareObj 7 "Tree"],
    collections := [{ name := "FireVFX", members := [7] }],
    scene_children := ["FireVFX"],
    next_id := 8 }

/-- C3 counterexample: with a pre-existing foreign member in the FireVFX
collection, after create_rig twice the grouping collection holds three
members, not exactly the two rig objects (link_to_collection only moves
the linked object itself; it never evicts other members). -/
theorem c3_counterexample_preexisting_member :
    colMembersOpt (create_rig (create_rig foreignDoc defaultSettings).1
      defaultSettings).1 COLLECTION_NAME = some [7, 8, 9] ∧
    (colMembersOpt (create_rig (create_rig foreignDoc defaultSettings).1
      defaultSettings).1 COLLECTION_NAME).map List.length ≠ some 2 := by
  have h1 : colMembersOpt (create_rig (create_rig foreignDoc defaultSettings).1
      defaultSettings).1 COLLECTION_NAME = some [7, 8, 9] := rfl
  refine ⟨h1, ?_⟩
  rw [h1]
  decide

/-- Witness for C3 at the empty document. -/
theorem c3_create_rig_twice_creates_nothing_witness :
    WFDoc emptyDoc ∧
    (∀ x ∈ emptyDoc.collections, x.name = COLLECTION_NAME → x.members = []) ∧
    colMembersOpt (create_rig (create_rig emptyDoc defaultSettings).1
      defaultSettings).1 COLLECTION_NAME =
      some [(create_rig_head emptyDoc).2.1, (create_rig_head emptyDoc).2.2] := by
  have hwf : WFDoc emptyDoc :=
    ⟨List.nodup_nil, List.nodup_nil, List.nodup_nil,
     fun o ho => absurd ho (List.not_mem_nil o)⟩
  have hg : ∀ x ∈ emptyDoc.collections, x.name = COLLECTION_NAME → x.members = [] :=
    fun x hx => absurd hx (List.not_mem_nil x)
  exact ⟨hwf, hg,
    (c3_create_rig_twice_creates_nothing emptyDoc defaultSettings defaultSettings
      hwf hg).2.2.2.2⟩
